import Mathlib

/-!
Verification of the gradient-lab core: a shallow embedding in Lean 4 of the
color-math module (`utils` file of the repository), the stop-list engine and
store actions (`store.ts`), and the gradient geometry / interactive gesture
code (the gradient editor component), together with proofs settling the
frozen claims about them.

Modelling conventions:
* JavaScript `number` is modelled as `ℝ` with exact real arithmetic
  (`Math.pow` is `Real.rpow`, `Math.sqrt` is `Real.sqrt`, `Math.atan2` is
  the piecewise `jsAtan2` below, `%` is the truncated remainder `jsRem`,
  `Math.round` is `jsRound`, i.e. `⌊x + 0.5⌋` as in ECMA-262).
* Hex color strings are modelled as `String`; a malformed hex digit parses
  to 0 here (the source yields `NaN` there; the spec excludes malformed hex
  upstream of the core, and no claim exercises it).
* `Math.random`-based id generation is modelled by an explicit id supply
  passed as a parameter.
-/

noncomputable section

open Classical

/-- ECMA-262 `Math.round`: round half toward positive infinity. -/
def jsRound (x : ℝ) : ℤ := ⌊x + 1/2⌋

/-- Truncation toward zero, as used by the JavaScript `%` operator. -/
def jsTrunc (x : ℝ) : ℤ := if 0 ≤ x then ⌊x⌋ else ⌈x⌉

/-- ECMA-262 remainder operator `x % y`: the result has the sign of `x`. -/
def jsRem (x y : ℝ) : ℝ := x - y * (jsTrunc (x / y) : ℝ)

/-- ECMA-262 `Math.atan2 y x`, expressed with `Real.arctan`. -/
def jsAtan2 (y x : ℝ) : ℝ :=
  if 0 < x then Real.arctan (y / x)
  else if x < 0 then
    (if 0 ≤ y then Real.arctan (y / x) + Real.pi else Real.arctan (y / x) - Real.pi)
  else
    (if 0 < y then Real.pi / 2 else if y < 0 then -(Real.pi / 2) else 0)

/-- `degreesToRadians` from the utils module. -/
def degreesToRadians (deg : ℝ) : ℝ := deg * Real.pi / 180

/-- `clamp01` from the utils module. -/
def clamp01 (x : ℝ) : ℝ := min 1 (max 0 x)

/-- Sign-preserving cube root (`cbrt` in the utils module):
`x < 0 ? -Math.pow(-x, 1/3) : Math.pow(x, 1/3)`. -/
def cbrt (x : ℝ) : ℝ :=
  if x < 0 then -((-x) ^ ((1 : ℝ)/3)) else x ^ ((1 : ℝ)/3)

structure RGB where
  r : ℝ
  g : ℝ
  b : ℝ

structure XYZ where
  X : ℝ
  Y : ℝ
  Z : ℝ

structure OKLab where
  L : ℝ
  a : ℝ
  b : ℝ

structure OKLCH where
  L : ℝ
  C : ℝ
  H : ℝ

/-- `EPS` from the utils module. -/
def EPS : ℝ := 1e-10

/-- `srgbToLinear` (sRGB transfer curve, decode direction). -/
def srgbToLinear (u : ℝ) : ℝ :=
  if u ≤ 0.04045 then u / 12.92 else ((u + 0.055) / 1.055) ^ (2.4 : ℝ)

/-- `linearToSrgb` (sRGB transfer curve, encode direction). -/
def linearToSrgb (u : ℝ) : ℝ :=
  if u ≤ 0.0031308 then 12.92 * u else 1.055 * u ^ ((1 : ℝ)/2.4) - 0.055

/-- `linearSrgbToXyz` with the exact matrix constants of the source. -/
def linearSrgbToXyz (rgbLin : RGB) : XYZ :=
  ⟨0.4122214708 * rgbLin.r + 0.5363325363 * rgbLin.g + 0.0514459929 * rgbLin.b,
   0.2119034982 * rgbLin.r + 0.6806995451 * rgbLin.g + 0.1073969566 * rgbLin.b,
   0.0883024619 * rgbLin.r + 0.2817188376 * rgbLin.g + 0.6299787005 * rgbLin.b⟩

/-- `xyzToLinearSrgb` with the exact matrix constants of the source. -/
def xyzToLinearSrgb (xyz : XYZ) : RGB :=
  ⟨3.2409699419 * xyz.X - 1.5373831776 * xyz.Y - 0.4986107603 * xyz.Z,
   -0.9692436363 * xyz.X + 1.8759675015 * xyz.Y + 0.0415550574 * xyz.Z,
   0.0556300797 * xyz.X - 0.2039769589 * xyz.Y + 1.0569715142 * xyz.Z⟩

/-- The pre-nonlinearity row `l` of `xyzToOklab`. -/
def xyzLmsL (xyz : XYZ) : ℝ :=
  0.8189330101 * xyz.X + 0.3618667424 * xyz.Y - 0.1288597137 * xyz.Z

/-- The pre-nonlinearity row `m` of `xyzToOklab`. -/
def xyzLmsM (xyz : XYZ) : ℝ :=
  0.0329845436 * xyz.X + 0.9293118715 * xyz.Y + 0.0361456387 * xyz.Z

/-- The pre-nonlinearity row `s` of `xyzToOklab`. -/
def xyzLmsS (xyz : XYZ) : ℝ :=
  0.0482003018 * xyz.X + 0.2643662691 * xyz.Y + 0.6338517070 * xyz.Z

/-- `xyzToOklab`: matrix, componentwise `cbrt`, matrix. -/
def xyzToOklab (xyz : XYZ) : OKLab :=
  ⟨0.2104542553 * cbrt (xyzLmsL xyz) + 0.7936177850 * cbrt (xyzLmsM xyz)
     - 0.0040720468 * cbrt (xyzLmsS xyz),
   1.9779984951 * cbrt (xyzLmsL xyz) - 2.4285922050 * cbrt (xyzLmsM xyz)
     + 0.4505937099 * cbrt (xyzLmsS xyz),
   0.0259040371 * cbrt (xyzLmsL xyz) + 0.7827717662 * cbrt (xyzLmsM xyz)
     - 0.8086757660 * cbrt (xyzLmsS xyz)⟩

/-- The `l_` intermediate of `oklabToXyz`. -/
def oklabL (lab : OKLab) : ℝ := lab.L + 0.3963377774 * lab.a + 0.2158037573 * lab.b

/-- The `m_` intermediate of `oklabToXyz`. -/
def oklabM (lab : OKLab) : ℝ := lab.L - 0.1055613458 * lab.a - 0.0638541728 * lab.b

/-- The `s_` intermediate of `oklabToXyz`. -/
def oklabS (lab : OKLab) : ℝ := lab.L - 0.0894841775 * lab.a - 1.2914855480 * lab.b

/-- `oklabToXyz`: matrix, componentwise cube, matrix (`l = l_*l_*l_` etc.). -/
def oklabToXyz (lab : OKLab) : XYZ :=
  ⟨1.2270138511 * (oklabL lab * oklabL lab * oklabL lab)
     - 0.5577999807 * (oklabM lab * oklabM lab * oklabM lab)
     + 0.2812561490 * (oklabS lab * oklabS lab * oklabS lab),
   -0.0405801784 * (oklabL lab * oklabL lab * oklabL lab)
     + 1.1122568696 * (oklabM lab * oklabM lab * oklabM lab)
     - 0.0716766787 * (oklabS lab * oklabS lab * oklabS lab),
   -0.0763812845 * (oklabL lab * oklabL lab * oklabL lab)
     - 0.4214819784 * (oklabM lab * oklabM lab * oklabM lab)
     + 1.5861632204 * (oklabS lab * oklabS lab * oklabS lab)⟩

/-- The raw hue `atan2(b,a) * 180 / π` used inside `oklabToOklch`. -/
def oklabHueRaw (lab : OKLab) : ℝ := jsAtan2 lab.b lab.a * 180 / Real.pi

/-- The hue component of `oklabToOklch`: `0` when chroma is `≤ EPS`, else the
raw hue shifted into `[0, 360)` by a single `+360` when negative. -/
def oklabHue (lab : OKLab) : ℝ :=
  if Real.sqrt (lab.a * lab.a + lab.b * lab.b) > EPS then
    (if oklabHueRaw lab < 0 then oklabHueRaw lab + 360 else oklabHueRaw lab)
  else 0

/-- `oklabToOklch`. -/
def oklabToOklch (lab : OKLab) : OKLCH :=
  ⟨lab.L, Real.sqrt (lab.a * lab.a + lab.b * lab.b), oklabHue lab⟩

/-- `oklchToOklab`. -/
def oklchToOklab (lch : OKLCH) : OKLab :=
  ⟨lch.L, lch.C * Real.cos (lch.H * Real.pi / 180),
   lch.C * Real.sin (lch.H * Real.pi / 180)⟩

/-- `srgbEncodedToOklch`. -/
def srgbEncodedToOklch (rgb : RGB) : OKLCH :=
  oklabToOklch (xyzToOklab (linearSrgbToXyz
    ⟨srgbToLinear rgb.r, srgbToLinear rgb.g, srgbToLinear rgb.b⟩))

/-- `oklchToSrgbEncoded`. -/
def oklchToSrgbEncoded (lch : OKLCH) : RGB :=
  ⟨linearToSrgb (xyzToLinearSrgb (oklabToXyz (oklchToOklab lch))).r,
   linearToSrgb (xyzToLinearSrgb (oklabToXyz (oklchToOklab lch))).g,
   linearToSrgb (xyzToLinearSrgb (oklabToXyz (oklchToOklab lch))).b⟩

/-- `isInGamutSrgbEncoded`: each channel within `[-5e-5, 1 + 5e-5]`. -/
def isInGamutSrgbEncoded (rgb : RGB) : Prop :=
  rgb.r ≥ -0.00005 ∧ rgb.r ≤ 1 + 0.00005 ∧
  rgb.g ≥ -0.00005 ∧ rgb.g ≤ 1 + 0.00005 ∧
  rgb.b ≥ -0.00005 ∧ rgb.b ≤ 1 + 0.00005

/-- State of the chroma binary search in `clampOklchToSrgbGamut`. -/
structure GamutSearch where
  lo : ℝ
  hi : ℝ
  best : ℝ

/-- One iteration of the chroma binary search at fixed `L`, `H`. -/
def gamutStep (L H : ℝ) (s : GamutSearch) : GamutSearch :=
  if isInGamutSrgbEncoded (oklchToSrgbEncoded ⟨L, (s.lo + s.hi) / 2, H⟩) then
    ⟨(s.lo + s.hi) / 2, s.hi, (s.lo + s.hi) / 2⟩
  else
    ⟨s.lo, (s.lo + s.hi) / 2, s.best⟩

/-- `maxIter` iterations of the chroma binary search. -/
def gamutIter (L H : ℝ) : ℕ → GamutSearch → GamutSearch
  | 0, s => s
  | n + 1, s => gamutIter L H n (gamutStep L H s)

/-- `clampOklchToSrgbGamut(lch, maxIter)`: return the input when already in
gamut, else binary-search chroma in `[0, lch.C]` and return the best
in-gamut chroma found (initially `0`), keeping `L` and `H`. -/
def clampOklchToSrgbGamut (lch : OKLCH) (maxIter : ℕ := 20) : OKLCH :=
  if isInGamutSrgbEncoded (oklchToSrgbEncoded lch) then lch
  else ⟨lch.L, (gamutIter lch.L lch.H maxIter ⟨0, lch.C, 0⟩).best, lch.H⟩

/-- Lowercase hex digit, as produced by `Number.prototype.toString(16)`.
Digits `≥ 16` map to `'0'` (unreachable at every call site, which clamps
to `[0, 255]` and extracts base-16 digits). -/
def hexChar (n : ℕ) : Char :=
  if n = 0 then '0' else if n = 1 then '1' else if n = 2 then '2'
  else if n = 3 then '3' else if n = 4 then '4' else if n = 5 then '5'
  else if n = 6 then '6' else if n = 7 then '7' else if n = 8 then '8'
  else if n = 9 then '9' else if n = 10 then 'a' else if n = 11 then 'b'
  else if n = 12 then 'c' else if n = 13 then 'd' else if n = 14 then 'e'
  else if n = 15 then 'f' else '0'

/-- `n.toString(16).padStart(2, '0')` for `n ∈ [0, 255]` (lowercase). -/
def natToHex2 (n : ℕ) : String := String.mk [hexChar (n / 16), hexChar (n % 16)]

/-- `n.toString(16).padStart(2, '0').toUpperCase()` for `n ∈ [0, 255]`. -/
def natToHex2U (n : ℕ) : String :=
  String.mk [(hexChar (n / 16)).toUpper, (hexChar (n % 16)).toUpper]

/-- `oklchToHex`: gamut-clamp, encode, clamp each channel into `[0,1]`,
round to 8 bits, uppercase hex; append an alpha byte only when
`alpha < 0.999`. -/
def oklchToHex (lch : OKLCH) (alpha : ℝ := 1) : String :=
  if alpha ≥ 0.999 then
    "#" ++ natToHex2U (jsRound
        (clamp01 (oklchToSrgbEncoded (clampOklchToSrgbGamut lch 20)).r * 255)).toNat
      ++ natToHex2U (jsRound
        (clamp01 (oklchToSrgbEncoded (clampOklchToSrgbGamut lch 20)).g * 255)).toNat
      ++ natToHex2U (jsRound
        (clamp01 (oklchToSrgbEncoded (clampOklchToSrgbGamut lch 20)).b * 255)).toNat
  else
    "#" ++ natToHex2U (jsRound
        (clamp01 (oklchToSrgbEncoded (clampOklchToSrgbGamut lch 20)).r * 255)).toNat
      ++ natToHex2U (jsRound
        (clamp01 (oklchToSrgbEncoded (clampOklchToSrgbGamut lch 20)).g * 255)).toNat
      ++ natToHex2U (jsRound
        (clamp01 (oklchToSrgbEncoded (clampOklchToSrgbGamut lch 20)).b * 255)).toNat
      ++ natToHex2U (jsRound (clamp01 alpha * 255)).toNat

/-- Value of one hex digit character (either case); a non-hex character
yields `0` (the source yields `NaN`; the spec excludes malformed hex). -/
def hexDigit (c : Char) : ℕ :=
  if c = '0' then 0 else if c = '1' then 1 else if c = '2' then 2
  else if c = '3' then 3 else if c = '4' then 4 else if c = '5' then 5
  else if c = '6' then 6 else if c = '7' then 7 else if c = '8' then 8
  else if c = '9' then 9 else if c = 'a' ∨ c = 'A' then 10
  else if c = 'b' ∨ c = 'B' then 11 else if c = 'c' ∨ c = 'C' then 12
  else if c = 'd' ∨ c = 'D' then 13 else if c = 'e' ∨ c = 'E' then 14
  else if c = 'f' ∨ c = 'F' then 15 else 0

/-- `parseInt(h.substring(i, i+2), 16)` over the digit list of a hex string. -/
def hexPairAt (l : List Char) (i : ℕ) : ℕ :=
  16 * hexDigit (l.getD i '0') + hexDigit (l.getD (i + 1) '0')

/-- The digit list of a hex color string with every `'#'` removed
(`hex.replace('#','')`). -/
def hexDigitsOf (s : String) : List Char := s.toList.filter (fun c => c ≠ '#')

/-- `hexToRgbStruct`: hex string to `RGB` with channels in `[0,1]`;
3-digit short form doubles each digit, anything else is read as 6-digit. -/
def hexToRgbStruct (hex : String) : RGB :=
  if (hexDigitsOf hex).length = 3 then
    ⟨(17 * hexDigit ((hexDigitsOf hex).getD 0 '0') : ℕ) / 255,
     (17 * hexDigit ((hexDigitsOf hex).getD 1 '0') : ℕ) / 255,
     (17 * hexDigit ((hexDigitsOf hex).getD 2 '0') : ℕ) / 255⟩
  else
    ⟨(hexPairAt (hexDigitsOf hex) 0 : ℕ) / 255,
     (hexPairAt (hexDigitsOf hex) 2 : ℕ) / 255,
     (hexPairAt (hexDigitsOf hex) 4 : ℕ) / 255⟩

/-- Result of the `parseHex` helper inside `interpolateColor`: 8-bit channel
values and an alpha in `[0,1]` defaulting to `1`. -/
structure HexRGBA where
  r : ℕ
  g : ℕ
  b : ℕ
  a : ℝ

/-- The `parseHex` helper of `interpolateColor`: accepts 3-, 6- and 8-digit
hex (after removing `'#'`); any other length yields `(0,0,0,1)`. -/
def parseHexColor (c : String) : HexRGBA :=
  if (hexDigitsOf c).length = 3 then
    ⟨17 * hexDigit ((hexDigitsOf c).getD 0 '0'),
     17 * hexDigit ((hexDigitsOf c).getD 1 '0'),
     17 * hexDigit ((hexDigitsOf c).getD 2 '0'), 1⟩
  else if (hexDigitsOf c).length = 6 then
    ⟨hexPairAt (hexDigitsOf c) 0, hexPairAt (hexDigitsOf c) 2,
     hexPairAt (hexDigitsOf c) 4, 1⟩
  else if (hexDigitsOf c).length = 8 then
    ⟨hexPairAt (hexDigitsOf c) 0, hexPairAt (hexDigitsOf c) 2,
     hexPairAt (hexDigitsOf c) 4, (hexPairAt (hexDigitsOf c) 6 : ℕ) / 255⟩
  else ⟨0, 0, 0, 1⟩

/-- The `toHex` helper of `interpolateColor`:
`Math.min(255, Math.max(0, n)).toString(16).padStart(2, '0')`. -/
def intToHex2 (n : ℤ) : String := natToHex2 (min 255 (max 0 n)).toNat

/-- The blended alpha `c1.a + (c2.a - c1.a) * factor` of `interpolateColor`. -/
def interpAlpha (color1 color2 : String) (factor : ℝ) : ℝ :=
  (parseHexColor color1).a
    + ((parseHexColor color2).a - (parseHexColor color1).a) * factor

/-- `interpolateColor(color1, color2, factor)`: componentwise sRGB blend,
rounded; 6-digit output when the blended alpha is `≥ 0.999`, else 8-digit. -/
def interpolateColor (color1 color2 : String) (factor : ℝ) : String :=
  if interpAlpha color1 color2 factor ≥ 0.999 then
    "#" ++ intToHex2 (jsRound ((parseHexColor color1).r
            + (((parseHexColor color2).r : ℝ) - (parseHexColor color1).r) * factor))
      ++ intToHex2 (jsRound ((parseHexColor color1).g
            + (((parseHexColor color2).g : ℝ) - (parseHexColor color1).g) * factor))
      ++ intToHex2 (jsRound ((parseHexColor color1).b
            + (((parseHexColor color2).b : ℝ) - (parseHexColor color1).b) * factor))
  else
    "#" ++ intToHex2 (jsRound ((parseHexColor color1).r
            + (((parseHexColor color2).r : ℝ) - (parseHexColor color1).r) * factor))
      ++ intToHex2 (jsRound ((parseHexColor color1).g
            + (((parseHexColor color2).g : ℝ) - (parseHexColor color1).g) * factor))
      ++ intToHex2 (jsRound ((parseHexColor color1).b
            + (((parseHexColor color2).b : ℝ) - (parseHexColor color1).b) * factor))
      ++ intToHex2 (jsRound (interpAlpha color1 color2 factor * 255))

/-! ## Data model (`types` module) and store actions (`store.ts`) -/

structure Vec2 where
  x : ℝ
  y : ℝ

inductive GradientType where
  | linear
  | radial
  | conic
deriving DecidableEq

structure GradientStop where
  id : String
  offset : ℝ
  color : String
  opacity : ℝ
  /-- optional `midpoint` field; `none` models an absent key -/
  midpoint : Option ℝ := none

/-- The `Gradient` record. The TypeScript field `end` is called `endP` here
(`end` is a Lean keyword); the `ratio` field is omitted (no modelled
operation reads it). -/
structure Gradient where
  type : GradientType
  stops : List GradientStop
  angle : ℝ
  center : Vec2
  start : Option Vec2 := none
  endP : Option Vec2 := none
  radius : Option ℝ := none

inductive Fill where
  | solid (color : String)
  | gradient (g : Gradient)

/-- The `Layer` record, restricted to the fields the modelled operations
read (presentational fields such as `name` and `visible` are omitted). -/
structure Layer where
  id : String
  x : ℝ
  y : ℝ
  width : ℝ
  height : ℝ
  rotation : ℝ
  fill : Fill

/-- A history snapshot: the store stringifies `{layers, layerOrder}`; the
model stores that pair directly (the JSON string is a function of it). -/
abbrev Snapshot : Type := List (String × Layer) × List String

/-- The slice of the zustand store state that the modelled actions touch.
`layers` is the `Record<string, Layer>` in insertion order. -/
structure EditorState where
  layers : List (String × Layer)
  layerOrder : List String
  selectedIds : List String
  historyPast : List Snapshot
  historyFuture : List Snapshot

/-- `MAX_HISTORY` from `store.ts`. -/
def MAX_HISTORY : ℕ := 50

/-- `Record` lookup `state.layers[layerId]`. -/
def lookupLayer (layers : List (String × Layer)) (layerId : String) : Option Layer :=
  (layers.find? (fun p => p.1 = layerId)).map (fun p => p.2)

/-- `{ ...state.layers, [id]: layer }` for an existing key: JavaScript
object spread keeps the original insertion position of the key. -/
def setLayer (layers : List (String × Layer)) (layerId : String) (l : Layer) :
    List (String × Layer) :=
  layers.map (fun p => if p.1 = layerId then (layerId, l) else p)

/-- `saveSnapshot`: push the current `{layers, layerOrder}` onto `past`
(keeping the last `MAX_HISTORY` entries) and clear `future`. -/
def saveSnapshot (st : EditorState) : EditorState :=
  { st with
    historyPast :=
      ((st.historyPast ++ [(st.layers, st.layerOrder)]).drop
        ((st.historyPast ++ [(st.layers, st.layerOrder)]).length - MAX_HISTORY)),
    historyFuture := [] }

/-- Replace the stop list of a gradient-filled layer. -/
def withStops (layer : Layer) (g : Gradient) (stops : List GradientStop) : Layer :=
  { layer with fill := Fill.gradient { g with stops := stops } }

/-- Replace the layer map of a state. -/
def withLayers (st : EditorState) (layers : List (String × Layer)) : EditorState :=
  { st with layers := layers }

/-- `removeGradientStop(layerId, stopId)`: snapshots history first, then
removes the matching stop unless the layer is missing, the fill is a solid
color, or the stop list has `≤ 2` entries. -/
def removeGradientStop (st : EditorState) (layerId stopId : String) : EditorState :=
  match lookupLayer (saveSnapshot st).layers layerId with
  | none => saveSnapshot st
  | some layer =>
    match layer.fill with
    | Fill.solid _ => saveSnapshot st
    | Fill.gradient g =>
      if g.stops.length ≤ 2 then saveSnapshot st
      else
        withLayers (saveSnapshot st)
          (setLayer (saveSnapshot st).layers layerId
            (withStops layer g (g.stops.filter (fun s => s.id ≠ stopId))))

/-- The comparator `(a, b) => a.offset - b.offset` composed with the
stability guarantee of `Array.prototype.sort` (ECMA-262): a stable sort by
nondecreasing offset, modelled by insertion sort (which is stable). -/
def sortStops (stops : List GradientStop) : List GradientStop :=
  List.insertionSort (fun a b => a.offset ≤ b.offset) stops

/-- `Partial<GradientStop>`: each field optionally present. A present
`midpoint` key carries an `Option ℝ` value (the field itself is optional). -/
structure StopPatch where
  id : Option String := none
  offset : Option ℝ := none
  color : Option String := none
  opacity : Option ℝ := none
  midpoint : Option (Option ℝ) := none

/-- The object spread `{ ...s, ...updates }`. -/
def applyStopPatch (s : GradientStop) (u : StopPatch) : GradientStop :=
  ⟨u.id.getD s.id, u.offset.getD s.offset, u.color.getD s.color,
   u.opacity.getD s.opacity, u.midpoint.getD s.midpoint⟩

/-- The stop-list transform inside `updateGradientStop`:
`stops.map(s => s.id === stopId ? { ...s, ...updates } : s)` re-sorted by
offset. -/
def updateStopList (stops : List GradientStop) (stopId : String) (u : StopPatch) :
    List GradientStop :=
  sortStops (stops.map (fun s => if s.id = stopId then applyStopPatch s u else s))

/-- `updateGradientStop(layerId, stopId, updates)` (no history snapshot). -/
def updateGradientStop (st : EditorState) (layerId stopId : String) (u : StopPatch) :
    EditorState :=
  match lookupLayer st.layers layerId with
  | none => st
  | some layer =>
    match layer.fill with
    | Fill.solid _ => st
    | Fill.gradient g =>
      withLayers st
        (setLayer st.layers layerId
          (withStops layer g (updateStopList g.stops stopId u)))

/-- A sequence of interactive offset edits `(stopId, newOffset)` applied to
a stop list through `updateStopList`. -/
def applyOffsetEdits (stops : List GradientStop) (es : List (String × ℝ)) :
    List GradientStop :=
  es.foldl (fun acc e => updateStopList acc e.1 ⟨none, some e.2, none, none, none⟩) stops

/-! ## Anti-banding resample (`fixGradientBanding`) -/

/-- The sRGB channel-sum distance used by the smoothing threshold check. -/
def colorDist (c1 c2 : RGB) : ℝ := |c1.r - c2.r| + |c1.g - c2.g| + |c1.b - c2.b|

/-- One smoothed channel byte: blend the linear-light channels at `t`,
re-encode to sRGB, clamp to `[0,1]`, scale to 8 bits and round. -/
def bandingByte (u1 u2 t : ℝ) : ℕ :=
  (jsRound (clamp01 (linearToSrgb (srgbToLinear u1 + (srgbToLinear u2 - srgbToLinear u1) * t)) * 255)).toNat

/-- The uppercase hex color of one inserted smoothing stop. -/
def bandingHex (c1 c2 : RGB) (t : ℝ) : String :=
  "#" ++ natToHex2U (bandingByte c1.r c2.r t) ++ natToHex2U (bandingByte c1.g c2.g t)
    ++ natToHex2U (bandingByte c1.b c2.b t)

/-- The 7 stops inserted between one adjacent pair (`k = 1 .. 7` of 8 equal
sub-intervals). `idGen i k` supplies the fresh id of inserted stop `k` of
pair `i` (the source calls `generateId()`, i.e. `Math.random`). -/
def bandingInserted (idGen : ℕ → ℕ → String) (i : ℕ) (s e : GradientStop) :
    List GradientStop :=
  (List.range 7).map (fun k0 =>
    ⟨idGen i (k0 + 1),
     s.offset + (e.offset - s.offset) * ((k0 + 1 : ℕ) : ℝ) / 8,
     bandingHex (hexToRgbStruct s.color) (hexToRgbStruct e.color) (((k0 + 1 : ℕ) : ℝ) / 8),
     s.opacity + (e.opacity - s.opacity) * (((k0 + 1 : ℕ) : ℝ) / 8),
     none⟩)

/-- One loop iteration of `fixGradientBanding` for the adjacent pair
`(s, e)`: always emit `s`; skip the inserted stops when the offset gap is
below `0.005` or the channel-sum distance is below `0.05`. -/
def bandingSegment (idGen : ℕ → ℕ → String) (i : ℕ) (s e : GradientStop) :
    List GradientStop :=
  s :: (if e.offset - s.offset < 0.005 then []
        else if colorDist (hexToRgbStruct s.color) (hexToRgbStruct e.color) < 0.05 then []
        else bandingInserted idGen i s e)

/-- The loop of `fixGradientBanding` over consecutive pairs of the sorted
list, followed by the final stop. -/
def bandingChain (idGen : ℕ → ℕ → String) (i : ℕ) : List GradientStop → List GradientStop
  | [] => []
  | [s] => [s]
  | s :: e :: rest => bandingSegment idGen i s e ++ bandingChain idGen (i + 1) (e :: rest)

/-- `fixGradientBanding(stops)`: sort a copy by offset, return the input
unchanged when fewer than 2 stops, else resample each adjacent pair. -/
def fixGradientBanding (idGen : ℕ → ℕ → String) (stops : List GradientStop) :
    List GradientStop :=
  if (sortStops stops).length < 2 then stops
  else bandingChain idGen 0 (sortStops stops)

/-! ## Gradient geometry (utils module and the gradient editor component) -/

/-- `getGradientCoords(angleDeg)`: the angle-derived linear axis endpoints
in normalized box coordinates (CSS convention: 0° points up). -/
def getGradientCoords (angleDeg : ℝ) : ℝ × ℝ × ℝ × ℝ :=
  (0.5 - 0.5 * Real.cos (degreesToRadians (angleDeg - 90)),
   0.5 - 0.5 * Real.sin (degreesToRadians (angleDeg - 90)),
   0.5 + 0.5 * Real.cos (degreesToRadians (angleDeg - 90)),
   0.5 + 0.5 * Real.sin (degreesToRadians (angleDeg - 90)))

/-- The conic branch shared verbatim by `getGradientT` (utils) and
`getProjectionT` (gradient editor): angle from center in the
clockwise-from-north convention, offset by the gradient angle, wrapped by
`(· + 360) % 360`, scaled to `[0, 1)`. -/
def conicT (mx my : ℝ) (g : Gradient) (layerWidth layerHeight : ℝ) : ℝ :=
  jsRem (jsRem (jsAtan2 (my - g.center.y * layerHeight) (mx - g.center.x * layerWidth)
          * 180 / Real.pi + 90 + 360) 360
      - g.angle + 360) 360 / 360

/-- `radiusPos` as computed inside `getGradientT` (utils): the default
`(0.5, 1)` when `radius` is `undefined`, else the point at
`center + radius · direction(angle)`. -/
def gradRadiusPos (g : Gradient) : Vec2 :=
  match g.radius with
  | none => ⟨0.5, 1⟩
  | some r =>
    ⟨g.center.x + r * Real.cos (degreesToRadians (g.angle - 90)),
     g.center.y + r * Real.sin (degreesToRadians (g.angle - 90))⟩

/-- The linear start/end pair used by `getGradientT` (utils): both explicit
points when both are present, otherwise both derived from the angle. -/
def gradLinearAxis (g : Gradient) : Vec2 × Vec2 :=
  match g.start, g.endP with
  | some s, some e => (s, e)
  | _, _ =>
    (⟨(getGradientCoords g.angle).1, (getGradientCoords g.angle).2.1⟩,
     ⟨(getGradientCoords g.angle).2.2.1, (getGradientCoords g.angle).2.2.2⟩)

/-- The pixel-space axis endpoints `(a, b)` of the non-conic branch of
`getGradientT` (utils): center→radius-handle for radial, start→end for
linear. -/
def gradAxisPx (g : Gradient) (layerWidth layerHeight : ℝ) : Vec2 × Vec2 :=
  if g.type = GradientType.radial then
    (⟨g.center.x * layerWidth, g.center.y * layerHeight⟩,
     ⟨(gradRadiusPos g).x * layerWidth, (gradRadiusPos g).y * layerHeight⟩)
  else
    (⟨(gradLinearAxis g).1.x * layerWidth, (gradLinearAxis g).1.y * layerHeight⟩,
     ⟨(gradLinearAxis g).2.x * layerWidth, (gradLinearAxis g).2.y * layerHeight⟩)

/-- The squared axis length `lenSq` of the projection in `getGradientT`. -/
def gradAxisLenSq (g : Gradient) (layerWidth layerHeight : ℝ) : ℝ :=
  ((gradAxisPx g layerWidth layerHeight).2.x - (gradAxisPx g layerWidth layerHeight).1.x)
    * ((gradAxisPx g layerWidth layerHeight).2.x - (gradAxisPx g layerWidth layerHeight).1.x)
  + ((gradAxisPx g layerWidth layerHeight).2.y - (gradAxisPx g layerWidth layerHeight).1.y)
    * ((gradAxisPx g layerWidth layerHeight).2.y - (gradAxisPx g layerWidth layerHeight).1.y)

/-- `getGradientT(mx, my, gradient, layerWidth, layerHeight)` (utils):
conic angle-wrap for conic gradients; otherwise scalar projection of the
pointer onto the axis, `0` for a zero-length axis, clamped into `[0, 1]`. -/
def getGradientT (mx my : ℝ) (g : Gradient) (layerWidth layerHeight : ℝ) : ℝ :=
  if g.type = GradientType.conic then conicT mx my g layerWidth layerHeight
  else if gradAxisLenSq g layerWidth layerHeight = 0 then 0
  else
    max 0 (min 1
      (((mx - (gradAxisPx g layerWidth layerHeight).1.x)
          * ((gradAxisPx g layerWidth layerHeight).2.x - (gradAxisPx g layerWidth layerHeight).1.x)
        + (my - (gradAxisPx g layerWidth layerHeight).1.y)
          * ((gradAxisPx g layerWidth layerHeight).2.y - (gradAxisPx g layerWidth layerHeight).1.y))
       / gradAxisLenSq g layerWidth layerHeight))

/-- `renderStart` of the gradient editor component: the explicit `start`
when present, else the angle-derived axis start (independently of `end`). -/
def renderStart (g : Gradient) : Vec2 :=
  g.start.getD ⟨(getGradientCoords g.angle).1, (getGradientCoords g.angle).2.1⟩

/-- `renderEnd` of the gradient editor component. -/
def renderEnd (g : Gradient) : Vec2 :=
  g.endP.getD ⟨(getGradientCoords g.angle).2.2.1, (getGradientCoords g.angle).2.2.2⟩

/-- `radiusPos` of the gradient editor component (`radius` defaults to
`0.5` there). -/
def editorRadiusPos (g : Gradient) : Vec2 :=
  ⟨g.center.x + (g.radius.getD 0.5) * Real.cos (degreesToRadians (g.angle - 90)),
   g.center.y + (g.radius.getD 0.5) * Real.sin (degreesToRadians (g.angle - 90))⟩

/-- The pixel-space axis `(a, b)` of `getProjectionT` (gradient editor):
center→radius-handle for radial, renderStart→renderEnd otherwise. -/
def editorAxisPx (g : Gradient) (w h : ℝ) : Vec2 × Vec2 :=
  if g.type = GradientType.radial then
    (⟨g.center.x * w, g.center.y * h⟩, ⟨(editorRadiusPos g).x * w, (editorRadiusPos g).y * h⟩)
  else
    (⟨(renderStart g).x * w, (renderStart g).y * h⟩,
     ⟨(renderEnd g).x * w, (renderEnd g).y * h⟩)

/-- The squared axis length of the projection in `getProjectionT`. -/
def editorAxisLenSq (g : Gradient) (w h : ℝ) : ℝ :=
  ((editorAxisPx g w h).2.x - (editorAxisPx g w h).1.x)
    * ((editorAxisPx g w h).2.x - (editorAxisPx g w h).1.x)
  + ((editorAxisPx g w h).2.y - (editorAxisPx g w h).1.y)
    * ((editorAxisPx g w h).2.y - (editorAxisPx g w h).1.y)

/-- `getProjectionT(mx, my)` of the gradient editor component: like
`getGradientT` but without the final clamp (callers clamp as needed). -/
def getProjectionT (g : Gradient) (w h mx my : ℝ) : ℝ :=
  if g.type = GradientType.conic then conicT mx my g w h
  else if editorAxisLenSq g w h = 0 then 0
  else
    ((mx - (editorAxisPx g w h).1.x)
        * ((editorAxisPx g w h).2.x - (editorAxisPx g w h).1.x)
      + (my - (editorAxisPx g w h).1.y)
        * ((editorAxisPx g w h).2.y - (editorAxisPx g w h).1.y))
     / editorAxisLenSq g w h

/-- The new stop offset committed by a `move-stop` pointer-move: the
projection, clamped into `[0.01, 0.99]` for non-conic gradients. -/
def moveStopOffset (g : Gradient) (w h mx my : ℝ) : ℝ :=
  if g.type ≠ GradientType.conic then
    max 0.01 (min 0.99 (getProjectionT g w h mx my))
  else getProjectionT g w h mx my

/-- The offset frozen on pointer-down on the gradient line (a
`potential-stop` gesture), committed as a new stop on a no-move release:
`Math.max(0.01, Math.min(0.99, getProjectionT(mx, my)))`. -/
def lineClickOffset (g : Gradient) (w h mx my : ℝ) : ℝ :=
  max 0.01 (min 0.99 (getProjectionT g w h mx my))

/-- `rotCenter` of the gradient editor component: midpoint of the rendered
axis for linear gradients, the gradient center for conic and radial. -/
def rotCenter (g : Gradient) (w h : ℝ) : Vec2 :=
  if g.type = GradientType.linear then
    ⟨((renderStart g).x * w + (renderEnd g).x * w) / 2,
     ((renderStart g).y * h + (renderEnd g).y * h) / 2⟩
  else ⟨g.center.x * w, g.center.y * h⟩

/-- The state frozen by a pointer-down on the rotate handle. -/
structure RotateState where
  center : Vec2
  isPointBased : Bool
  currentLen : ℝ
  startAngle : ℝ

/-- Pointer-down handling for `type === 'rotate'`: freeze the rotation
center, whether the linear gradient uses explicit points, and the current
axis length in pixels. -/
def rotateFreeze (g : Gradient) (w h : ℝ) : RotateState :=
  ⟨rotCenter g w h,
   g.type = GradientType.linear ∧ g.start.isSome ∧ g.endP.isSome,
   Real.sqrt ((((renderEnd g).x - (renderStart g).x) * w)
        * (((renderEnd g).x - (renderStart g).x) * w)
      + (((renderEnd g).y - (renderStart g).y) * h)
        * (((renderEnd g).y - (renderStart g).y) * h)),
   g.angle⟩

/-- The `updates` object passed to `updateLayerGradient` by a pointer-move
(a `Partial<Gradient>` of the fields the rotate gesture can set). -/
structure GradientPatch where
  angle : Option ℝ := none
  start : Option Vec2 := none
  endP : Option Vec2 := none

/-- The CSS angle computed by the rotate pointer-move from the pointer
position and the frozen center. -/
def rotateCssDeg (st : RotateState) (mx my : ℝ) : ℝ :=
  jsRem (jsAtan2 (my - st.center.y) (mx - st.center.x) * 180 / Real.pi + 90 + 360) 360

/-- Pointer-move handling for a rotate gesture: always update `angle`; for
a point-based linear gradient also recompute `start`/`end` around the
frozen center at the frozen half-length. -/
def rotateMove (st : RotateState) (g : Gradient) (w h mx my : ℝ) : GradientPatch :=
  if st.isPointBased ∧ g.type = GradientType.linear then
    { angle := some (rotateCssDeg st mx my),
      start := some
        ⟨(st.center.x - Real.cos (jsAtan2 (my - st.center.y) (mx - st.center.x))
            * (st.currentLen / 2)) / w,
         (st.center.y - Real.sin (jsAtan2 (my - st.center.y) (mx - st.center.x))
            * (st.currentLen / 2)) / h⟩,
      endP := some
        ⟨(st.center.x + Real.cos (jsAtan2 (my - st.center.y) (mx - st.center.x))
            * (st.currentLen / 2)) / w,
         (st.center.y + Real.sin (jsAtan2 (my - st.center.y) (mx - st.center.x))
            * (st.currentLen / 2)) / h⟩ }
  else { angle := some (rotateCssDeg st mx my) }

/-! ## Helper lemmas: rational bounds for `rpow`, `jsRem`, `jsAtan2` -/

theorem rpow_ratio_pow {x : ℝ} (hx : 0 ≤ x) (m n : ℕ) (hn : (n : ℝ) ≠ 0) :
    (x ^ ((m : ℝ)/(n : ℝ))) ^ (n : ℕ) = x ^ (m : ℕ) := by
  rw [← Real.rpow_natCast (x ^ ((m : ℝ)/(n : ℝ))) n, ← Real.rpow_mul hx,
    div_mul_cancel₀ _ hn, Real.rpow_natCast]

/-- `x ^ (m/n) ≤ q` follows from `x ^ m ≤ q ^ n`. -/
theorem rpow_ratio_le {x q : ℝ} (m n : ℕ) (hn : 0 < n) (hx : 0 ≤ x) (hq : 0 ≤ q)
    (h : x ^ (m : ℕ) ≤ q ^ (n : ℕ)) : x ^ ((m : ℝ)/(n : ℝ)) ≤ q := by
  have hn0 : (n : ℝ) ≠ 0 := Nat.cast_ne_zero.mpr hn.ne'
  refine le_of_pow_le_pow_left₀ hn.ne' hq ?_
  rw [rpow_ratio_pow hx m n hn0]
  exact h

/-- `q ≤ x ^ (m/n)` follows from `q ^ n ≤ x ^ m`. -/
theorem le_rpow_ratio {x q : ℝ} (m n : ℕ) (hn : 0 < n) (hx : 0 ≤ x)
    (h : q ^ (n : ℕ) ≤ x ^ (m : ℕ)) : q ≤ x ^ ((m : ℝ)/(n : ℝ)) := by
  have hn0 : (n : ℝ) ≠ 0 := Nat.cast_ne_zero.mpr hn.ne'
  refine le_of_pow_le_pow_left₀ hn.ne' (Real.rpow_nonneg hx _) ?_
  rw [rpow_ratio_pow hx m n hn0]
  exact h

/-- `q < x ^ (m/n)` follows from `q ^ n < x ^ m`. -/
theorem lt_rpow_ratio {x q : ℝ} (m n : ℕ) (hn : 0 < n) (hx : 0 ≤ x)
    (h : q ^ (n : ℕ) < x ^ (m : ℕ)) : q < x ^ ((m : ℝ)/(n : ℝ)) := by
  have hn0 : (n : ℝ) ≠ 0 := Nat.cast_ne_zero.mpr hn.ne'
  refine lt_of_pow_lt_pow_left₀ n (Real.rpow_nonneg hx _) ?_
  rw [rpow_ratio_pow hx m n hn0]
  exact h

/-- The truncated remainder of a nonnegative dividend by a positive divisor
lies in `[0, y)`. -/
theorem jsRem_nonneg_lt {x y : ℝ} (hx : 0 ≤ x) (hy : 0 < y) :
    0 ≤ jsRem x y ∧ jsRem x y < y := by
  have hxy : 0 ≤ x / y := div_nonneg hx hy.le
  have htr : jsTrunc (x / y) = ⌊x / y⌋ := if_pos hxy
  have hfr : Int.fract (x / y) = x / y - ⌊x / y⌋ := rfl
  have h0 := Int.fract_nonneg (x / y)
  have h1 := Int.fract_lt_one (x / y)
  rw [hfr] at h0 h1
  have hrem : jsRem x y = y * Int.fract (x / y) := by
    rw [jsRem, htr, hfr]
    field_simp
  rw [hrem, hfr]
  constructor
  · nlinarith
  · nlinarith

/-- `Math.atan2` always returns a value in `(-π, π]`. -/
theorem jsAtan2_mem {y x : ℝ} : -Real.pi < jsAtan2 y x ∧ jsAtan2 y x ≤ Real.pi := by
  have hpi := Real.pi_pos
  have harctl : ∀ z : ℝ, Real.arctan z < Real.pi / 2 := Real.arctan_lt_pi_div_two
  have harctg : ∀ z : ℝ, -(Real.pi / 2) < Real.arctan z := Real.neg_pi_div_two_lt_arctan
  unfold jsAtan2
  by_cases h1 : 0 < x
  · rw [if_pos h1]
    constructor
    · nlinarith [harctg (y / x)]
    · nlinarith [harctl (y / x)]
  · rw [if_neg h1]
    by_cases h2 : x < 0
    · rw [if_pos h2]
      by_cases h3 : 0 ≤ y
      · -- `y/x ≤ 0`, so `arctan (y/x) ∈ (-π/2, 0]` and the result is in `(π/2, π]`
        rw [if_pos h3]
        have hyx : y / x ≤ 0 := div_nonpos_of_nonneg_of_nonpos h3 h2.le
        have harc0 : Real.arctan (y / x) ≤ 0 := by
          have := Real.arctan_strictMono.monotone hyx
          rwa [Real.arctan_zero] at this
        constructor
        · nlinarith [harctg (y / x)]
        · nlinarith
      · rw [if_neg h3]
        push_neg at h3
        have hyx : 0 < y / x := by
          rw [div_pos_iff]
          right
          exact ⟨h3, h2⟩
        have harc0 : 0 < Real.arctan (y / x) := by
          have := Real.arctan_strictMono hyx
          rwa [Real.arctan_zero] at this
        constructor
        · nlinarith [harctl (y / x)]
        · nlinarith [harctl (y / x)]
    · by_cases h4 : 0 < y
      · rw [if_neg h2, if_pos h4]
        constructor <;> nlinarith
      · rw [if_neg h2, if_neg h4]
        by_cases h5 : y < 0
        · rw [if_pos h5]
          constructor <;> nlinarith
        · rw [if_neg h5]
          constructor <;> nlinarith

/-! ## Gamut binary search: invariants -/

/-- The best chroma after any number of iterations is either unchanged or
was itself tested in gamut. -/
theorem gamutIter_best (L H : ℝ) (n : ℕ) (s : GamutSearch) :
    (gamutIter L H n s).best = s.best ∨
    isInGamutSrgbEncoded (oklchToSrgbEncoded ⟨L, (gamutIter L H n s).best, H⟩) := by
  induction n generalizing s with
  | zero => exact Or.inl rfl
  | succ n ih =>
    rw [gamutIter]
    rcases ih (gamutStep L H s) with h | h
    · rw [h]
      unfold gamutStep
      split_ifs with hg
      · exact Or.inr hg
      · exact Or.inl rfl
    · exact Or.inr h

/-- The binary search keeps `lo ≤ hi` inside `[0, C]` and the best chroma
inside `[0, C]`. -/
theorem gamutIter_bounds (L H C : ℝ) (n : ℕ) (s : GamutSearch)
    (h0 : 0 ≤ s.lo) (h1 : s.lo ≤ s.hi) (h2 : s.hi ≤ C)
    (h3 : 0 ≤ s.best) (h4 : s.best ≤ C) :
    0 ≤ (gamutIter L H n s).best ∧ (gamutIter L H n s).best ≤ C := by
  induction n generalizing s with
  | zero => exact ⟨h3, h4⟩
  | succ n ih =>
    rw [gamutIter]
    have hmid1 : s.lo ≤ (s.lo + s.hi) / 2 := by linarith
    have hmid2 : (s.lo + s.hi) / 2 ≤ s.hi := by linarith
    unfold gamutStep
    split_ifs with hg
    · exact ih _ (by simpa using le_trans h0 hmid1) (by simpa using hmid2)
        (by simpa using h2) (by simpa using le_trans h0 hmid1)
        (by simpa using le_trans hmid2 h2)
    · exact ih _ (by simpa using h0) (by simpa using hmid1)
        (by simpa using le_trans hmid2 h2) (by simpa using h3) (by simpa using h4)

/-- From the all-zero state with an out-of-gamut achromatic color, the
binary search never moves. -/
theorem gamutIter_zero (L H : ℝ) (n : ℕ)
    (h : ¬ isInGamutSrgbEncoded (oklchToSrgbEncoded ⟨L, 0, H⟩)) :
    gamutIter L H n ⟨0, 0, 0⟩ = ⟨0, 0, 0⟩ := by
  induction n with
  | zero => rfl
  | succ n ih =>
    rw [gamutIter]
    have hstep : gamutStep L H ⟨0, 0, 0⟩ = ⟨0, 0, 0⟩ := by
      unfold gamutStep
      split_ifs with hg
      · norm_num at hg
        exact absurd hg h
      · norm_num
    rw [hstep, ih]

/-! ## Evaluation helpers for achromatic colors -/

/-- The achromatic OKLCH color at lightness 0 encodes to pure black. -/
theorem enc_zero : oklchToSrgbEncoded ⟨0, 0, 0⟩ = ⟨0, 0, 0⟩ := by
  simp only [oklchToSrgbEncoded, oklchToOklab, oklabToXyz, oklabL, oklabM, oklabS,
    xyzToLinearSrgb, linearToSrgb]
  norm_num

/-- Black is in the sRGB gamut. -/
theorem inGamut_zero : isInGamutSrgbEncoded (oklchToSrgbEncoded ⟨0, 0, 0⟩) := by
  rw [enc_zero]
  unfold isInGamutSrgbEncoded
  norm_num

/-! ## Claim C10 -/

/-- `clampOklchToSrgbGamut` on an already in-gamut input. -/
theorem clamp_of_inGamut (lch : OKLCH) (n : ℕ)
    (h : isInGamutSrgbEncoded (oklchToSrgbEncoded lch)) :
    clampOklchToSrgbGamut lch n = lch := by
  unfold clampOklchToSrgbGamut
  rw [if_pos h]

/-- `clampOklchToSrgbGamut` on an out-of-gamut input. -/
theorem clamp_of_notInGamut (lch : OKLCH) (n : ℕ)
    (h : ¬ isInGamutSrgbEncoded (oklchToSrgbEncoded lch)) :
    clampOklchToSrgbGamut lch n =
      ⟨lch.L, (gamutIter lch.L lch.H n ⟨0, lch.C, 0⟩).best, lch.H⟩ := by
  unfold clampOklchToSrgbGamut
  rw [if_neg h]

/-- C10: `clampOklchToSrgbGamut` is idempotent for every input (any
iteration budget), and an input that already converts to an in-gamut sRGB
triple is returned unchanged. -/
theorem clampOklch_idempotent (lch : OKLCH) (n : ℕ) :
    clampOklchToSrgbGamut (clampOklchToSrgbGamut lch n) n = clampOklchToSrgbGamut lch n ∧
    (isInGamutSrgbEncoded (oklchToSrgbEncoded lch) → clampOklchToSrgbGamut lch n = lch) := by
  refine ⟨?_, clamp_of_inGamut lch n⟩
  by_cases h : isInGamutSrgbEncoded (oklchToSrgbEncoded lch)
  · rw [clamp_of_inGamut lch n h, clamp_of_inGamut lch n h]
  · by_cases h2 : isInGamutSrgbEncoded (oklchToSrgbEncoded (clampOklchToSrgbGamut lch n))
    · exact clamp_of_inGamut _ n h2
    · -- the best chroma must be 0, and a second search from 0 stays at 0
      have h1 := clamp_of_notInGamut lch n h
      have hbest : (gamutIter lch.L lch.H n ⟨0, lch.C, 0⟩).best = 0 := by
        rcases gamutIter_best lch.L lch.H n ⟨0, lch.C, 0⟩ with hb | hb
        · exact hb
        · rw [h1] at h2
          exact absurd hb h2
      rw [h1, hbest] at h2 ⊢
      rw [clamp_of_notInGamut _ n h2]
      have hzero := gamutIter_zero lch.L lch.H n h2
      show (⟨lch.L, (gamutIter lch.L lch.H n ⟨0, 0, 0⟩).best, lch.H⟩ : OKLCH) = _
      rw [hzero]

/-- Witness for C10 at the achromatic black input. -/
theorem clampOklch_idempotent_witness :
    clampOklchToSrgbGamut (clampOklchToSrgbGamut ⟨0, 0, 0⟩ 20) 20 =
      clampOklchToSrgbGamut ⟨0, 0, 0⟩ 20 ∧
    clampOklchToSrgbGamut ⟨0, 0, 0⟩ 20 = ⟨0, 0, 0⟩ :=
  ⟨(clampOklch_idempotent ⟨0, 0, 0⟩ 20).1,
   (clampOklch_idempotent ⟨0, 0, 0⟩ 20).2 inGamut_zero⟩

/-! ## Claim C1 -/

/-- The red channel of the encoding of the achromatic color at `L = 1` is
`linearToSrgb` of the exact rational constant produced by the source's
matrix pipeline (which exceeds 1 by about `4.2e-4`). -/
theorem enc_white_r :
    (oklchToSrgbEncoded ⟨1, 0, 0⟩).r =
      linearToSrgb (100042349749168746561 / 100000000000000000000) := by
  simp only [oklchToSrgbEncoded, oklchToOklab, oklabToXyz, oklabL, oklabM, oklabS,
    xyzToLinearSrgb]
  norm_num

/-- The achromatic color at `L = 1` (white) is NOT accepted as in gamut by
the source's tolerance `5e-5`: its encoded red channel exceeds `1 + 5e-5`. -/
theorem enc_white_not_inGamut :
    ¬ isInGamutSrgbEncoded (oklchToSrgbEncoded ⟨1, 0, 0⟩) := by
  intro h
  have hr := h.2.1
  rw [enc_white_r] at hr
  have hbranch : ¬ ((100042349749168746561 : ℝ) / 100000000000000000000 ≤ 0.0031308) := by
    norm_num
  rw [linearToSrgb, if_neg hbranch] at hr
  have hexp : ((1 : ℝ)/2.4) = ((5 : ℕ) : ℝ) / ((12 : ℕ) : ℝ) := by norm_num
  rw [hexp] at hr
  have hq : (21101 / 21100 : ℝ) <
      ((100042349749168746561 : ℝ) / 100000000000000000000) ^ (((5 : ℕ) : ℝ) / ((12 : ℕ) : ℝ)) := by
    apply lt_rpow_ratio 5 12 (by norm_num) (by norm_num)
    norm_num
  nlinarith [hq]

/-- Counterexample to C1 as stated: the input `(L, C, H) = (1, 0, 0)` has
`L ∈ [0, 1]` and `H ∈ [0, 360)`, yet the output of `clampOklchToSrgbGamut`
(default budget 20) converts to an sRGB triple that
`isInGamutSrgbEncoded` rejects. -/
theorem clampOklch_gamut_cex :
    clampOklchToSrgbGamut ⟨1, 0, 0⟩ 20 = ⟨1, 0, 0⟩ ∧
    ¬ isInGamutSrgbEncoded (oklchToSrgbEncoded (clampOklchToSrgbGamut ⟨1, 0, 0⟩ 20)) := by
  have hclamp : clampOklchToSrgbGamut ⟨1, 0, 0⟩ 20 = ⟨1, 0, 0⟩ := by
    rw [clamp_of_notInGamut _ 20 enc_white_not_inGamut]
    show (⟨1, (gamutIter 1 0 20 ⟨0, 0, 0⟩).best, 0⟩ : OKLCH) = _
    rw [gamutIter_zero 1 0 20 enc_white_not_inGamut]
  refine ⟨hclamp, ?_⟩
  rw [hclamp]
  exact enc_white_not_inGamut

/-- C1 (amended): for every OKLCH input with nonnegative chroma whose
achromatic version (chroma 0 at the same `L`, `H`) converts into gamut,
`clampOklchToSrgbGamut` (any iteration budget) yields a color that
converts into gamut, with chroma at most the input chroma and `L`, `H`
unchanged. -/
theorem clampOklch_gamut (lch : OKLCH) (n : ℕ) (hC : 0 ≤ lch.C)
    (hgray : isInGamutSrgbEncoded (oklchToSrgbEncoded ⟨lch.L, 0, lch.H⟩)) :
    isInGamutSrgbEncoded (oklchToSrgbEncoded (clampOklchToSrgbGamut lch n)) ∧
    (clampOklchToSrgbGamut lch n).C ≤ lch.C ∧
    (clampOklchToSrgbGamut lch n).L = lch.L ∧
    (clampOklchToSrgbGamut lch n).H = lch.H := by
  by_cases h : isInGamutSrgbEncoded (oklchToSrgbEncoded lch)
  · rw [clamp_of_inGamut lch n h]
    exact ⟨h, le_refl _, rfl, rfl⟩
  · rw [clamp_of_notInGamut lch n h]
    have hb := gamutIter_bounds lch.L lch.H lch.C n ⟨0, lch.C, 0⟩
      (le_refl 0) hC (le_refl _) (le_refl 0) hC
    refine ⟨?_, hb.2, rfl, rfl⟩
    rcases gamutIter_best lch.L lch.H n ⟨0, lch.C, 0⟩ with hzero | hg
    · rw [hzero]
      exact hgray
    · exact hg

/-- Witness for C1 (amended) at the achromatic black input. -/
theorem clampOklch_gamut_witness :
    isInGamutSrgbEncoded (oklchToSrgbEncoded (clampOklchToSrgbGamut ⟨0, 0, 0⟩ 20)) ∧
    (clampOklchToSrgbGamut ⟨0, 0, 0⟩ 20).C ≤ 0 :=
  ⟨(clampOklch_gamut ⟨0, 0, 0⟩ 20 (le_refl 0) inGamut_zero).1,
   (clampOklch_gamut ⟨0, 0, 0⟩ 20 (le_refl 0) inGamut_zero).2.1⟩

/-! ## Claim C8 -/

/-- Every two-character hex output of `interpolateColor` has length 2. -/
theorem intToHex2_length (n : ℤ) : (intToHex2 n).length = 2 := by
  simp [intToHex2, natToHex2, String.length]

/-- C8: `interpolateColor('#000000', '#FFFFFF', 0.5)` is exactly
`'#808080'`; `parseHex` accepts 3- and 6-digit hex with default alpha 1 and
8-digit hex with the last digit pair as alpha; the output is a 6-digit hex
(length 7 with `'#'`) when the blended alpha is at least `0.999`, else an
8-digit RRGGBBAA hex (length 9). -/
theorem interpolateColor_spec :
    interpolateColor "#000000" "#FFFFFF" 0.5 = "#808080" ∧
    (∀ c : String, (hexDigitsOf c).length = 3 ∨ (hexDigitsOf c).length = 6 →
      (parseHexColor c).a = 1) ∧
    (∀ c : String, (hexDigitsOf c).length = 8 →
      (parseHexColor c).a = ((hexPairAt (hexDigitsOf c) 6 : ℕ) : ℝ) / 255) ∧
    (∀ (c1 c2 : String) (f : ℝ),
      (0.999 ≤ interpAlpha c1 c2 f → (interpolateColor c1 c2 f).length = 7) ∧
      (interpAlpha c1 c2 f < 0.999 → (interpolateColor c1 c2 f).length = 9)) := by
  refine ⟨?_, ?_, ?_, ?_⟩
  · have h1 : parseHexColor "#000000" = ⟨0, 0, 0, 1⟩ := by
      have h : hexDigitsOf "#000000" = ['0','0','0','0','0','0'] := by decide
      simp [parseHexColor, h, hexPairAt, hexDigit]
    have h2 : parseHexColor "#FFFFFF" = ⟨255, 255, 255, 1⟩ := by
      have h : hexDigitsOf "#FFFFFF" = ['F','F','F','F','F','F'] := by decide
      simp [parseHexColor, h, hexPairAt, hexDigit]
    have ha : interpAlpha "#000000" "#FFFFFF" 0.5 = 1 := by
      rw [interpAlpha, h1, h2]
      norm_num
    rw [interpolateColor, if_pos (by rw [ha]; norm_num), h1, h2]
    have hr : jsRound ((255 : ℝ) / 2) = 128 := by
      unfold jsRound
      norm_num
    norm_num [hr]
    decide
  · intro c h
    rcases h with h | h
    · simp [parseHexColor, h]
    · simp [parseHexColor, h]
  · intro c h
    simp [parseHexColor, h]
  · intro c1 c2 f
    constructor
    · intro h
      rw [interpolateColor, if_pos (by exact h)]
      simp [String.length_append, intToHex2_length]
      decide
    · intro h
      rw [interpolateColor, if_neg (by exact not_le.mpr h)]
      simp [String.length_append, intToHex2_length]
      decide

/-- Witness for C8 at concrete 3-, 6- and 8-digit inputs. -/
theorem interpolateColor_spec_witness :
    (parseHexColor "#ABC").a = 1 ∧
    (parseHexColor "#00000080").a = ((hexPairAt (hexDigitsOf "#00000080") 6 : ℕ) : ℝ) / 255 ∧
    (interpolateColor "#000000" "#FFFFFF" 0.5).length = 7 ∧
    (interpolateColor "#00000000" "#000000" 0.5).length = 9 := by
  refine ⟨interpolateColor_spec.2.1 "#ABC" (Or.inl (by decide)),
    interpolateColor_spec.2.2.1 "#00000080" (by decide),
    (interpolateColor_spec.2.2.2 "#000000" "#FFFFFF" 0.5).1 ?_,
    (interpolateColor_spec.2.2.2 "#00000000" "#000000" 0.5).2 ?_⟩
  · have h1 : parseHexColor "#000000" = ⟨0, 0, 0, 1⟩ := by
      have h : hexDigitsOf "#000000" = ['0','0','0','0','0','0'] := by decide
      simp [parseHexColor, h, hexPairAt, hexDigit]
    have h2 : parseHexColor "#FFFFFF" = ⟨255, 255, 255, 1⟩ := by
      have h : hexDigitsOf "#FFFFFF" = ['F','F','F','F','F','F'] := by decide
      simp [parseHexColor, h, hexPairAt, hexDigit]
    rw [interpAlpha, h1, h2]
    norm_num
  · have h1 : parseHexColor "#00000000" = ⟨0, 0, 0, 0⟩ := by
      have h : hexDigitsOf "#00000000" = ['0','0','0','0','0','0','0','0'] := by decide
      simp [parseHexColor, h, hexPairAt, hexDigit]
    have h2 : parseHexColor "#000000" = ⟨0, 0, 0, 1⟩ := by
      have h : hexDigitsOf "#000000" = ['0','0','0','0','0','0'] := by decide
      simp [parseHexColor, h, hexPairAt, hexDigit]
    rw [interpAlpha, h1, h2]
    norm_num

/-! ## Claim C3 -/

/-- Updating an existing key of the layer record leaves it retrievable with
the new value. -/
theorem lookup_setLayer (layers : List (String × Layer)) (layerId : String) (l : Layer)
    (h : (lookupLayer layers layerId).isSome) :
    lookupLayer (setLayer layers layerId l) layerId = some l := by
  induction layers with
  | nil => simp [lookupLayer] at h
  | cons p rest ih =>
    by_cases hp : p.1 = layerId
    · simp [lookupLayer, setLayer, List.find?, hp]
    · have h' : (lookupLayer rest layerId).isSome := by
        simpa [lookupLayer, List.find?, hp] using h
      simpa [lookupLayer, setLayer, List.find?, hp] using ih h'

/-- Under unique ids, at most one stop matches a given id. -/
theorem countP_le_one_of_nodup (stops : List GradientStop) (stopId : String)
    (h : (stops.map (fun s => s.id)).Nodup) :
    stops.countP (fun s => s.id = stopId) ≤ 1 := by
  induction stops with
  | nil => simp
  | cons a l ih =>
    rw [List.map_cons, List.nodup_cons] at h
    rw [List.countP_cons]
    by_cases ha : a.id = stopId
    · have hz : l.countP (fun s => decide (s.id = stopId)) = 0 := by
        rw [List.countP_eq_zero]
        intro x hx
        simp only [decide_eq_true_eq]
        intro hxid
        exact h.1 (List.mem_map.mpr ⟨x, hx, by rw [hxid, ha]⟩)
      simp [ha, hz]
    · simpa [ha] using ih h.2

/-- When no stop matches the id, the removal filter keeps every stop. -/
theorem filter_ne_of_countP_zero (l : List GradientStop) (stopId : String)
    (h : l.countP (fun s => s.id = stopId) = 0) :
    l.filter (fun s => s.id ≠ stopId) = l := by
  induction l with
  | nil => rfl
  | cons a t ih =>
    rw [List.countP_cons] at h
    by_cases ha : a.id = stopId
    · simp [ha] at h
    · rw [List.filter_cons, if_pos (by simp [ha])]
      rw [ih (by simpa [ha] using h)]

/-- When at most one stop matches the id, the removal filter drops at most
one stop. -/
theorem filter_ne_length_floor (l : List GradientStop) (stopId : String)
    (hc : l.countP (fun s => s.id = stopId) ≤ 1) :
    l.length ≤ (l.filter (fun s => s.id ≠ stopId)).length + 1 := by
  induction l with
  | nil => simp
  | cons a t ih =>
    rw [List.countP_cons] at hc
    by_cases ha : a.id = stopId
    · have h0 : t.countP (fun s => s.id = stopId) = 0 := by
        rw [if_pos (by simp [ha])] at hc
        omega
      rw [List.filter_cons, if_neg (by simp [ha])]
      rw [filter_ne_of_countP_zero t stopId h0]
      simp
    · rw [List.filter_cons, if_pos (by simp [ha])]
      rw [if_neg (by simp [ha])] at hc
      have := ih (by simpa using hc)
      simp only [List.length_cons]
      omega

/-- C3 (amended): with unique stop ids, `removeGradientStop` on a layer
whose gradient has at least 2 stops never yields fewer than 2 stops; with
exactly 2 stops it is a rejected no-op on `layers`, `layerOrder` and
`selectedIds` (only the undo history records a snapshot), so callers can
detect the rejection by the stop list not changing. -/
theorem removeGradientStop_floor (st : EditorState) (layerId stopId : String)
    (layer : Layer) (g : Gradient)
    (hl : lookupLayer st.layers layerId = some layer)
    (hf : layer.fill = Fill.gradient g)
    (hids : (g.stops.map (fun s => s.id)).Nodup)
    (h2 : 2 ≤ g.stops.length) :
    (∃ layer2 g2,
      lookupLayer (removeGradientStop st layerId stopId).layers layerId = some layer2 ∧
      layer2.fill = Fill.gradient g2 ∧ 2 ≤ g2.stops.length) ∧
    (g.stops.length = 2 →
      (removeGradientStop st layerId stopId).layers = st.layers ∧
      (removeGradientStop st layerId stopId).layerOrder = st.layerOrder ∧
      (removeGradientStop st layerId stopId).selectedIds = st.selectedIds) := by
  have hsnap : (saveSnapshot st).layers = st.layers := rfl
  have hres : removeGradientStop st layerId stopId =
      (match lookupLayer st.layers layerId with
        | none => saveSnapshot st
        | some layer =>
          match layer.fill with
          | Fill.solid _ => saveSnapshot st
          | Fill.gradient g =>
            if g.stops.length ≤ 2 then saveSnapshot st
            else
              withLayers (saveSnapshot st)
                (setLayer (saveSnapshot st).layers layerId
                  (withStops layer g (g.stops.filter (fun s => s.id ≠ stopId))))) := by
    rw [removeGradientStop, hsnap]
  rw [hres]
  split
  · next heq =>
    rw [hl] at heq
    cases heq
  next l heq =>
  rw [hl] at heq
  injection heq with heq'
  subst heq'
  split
  · next c heqf =>
    rw [hf] at heqf
    cases heqf
  next g2 heqf =>
  rw [hf] at heqf
  injection heqf with hg
  subst hg
  by_cases hle : g.stops.length ≤ 2
  · rw [if_pos hle]
    exact ⟨⟨layer, g, hl, hf, h2⟩, fun _ => ⟨rfl, rfl, rfl⟩⟩
  · rw [if_neg hle]
    push_neg at hle
    constructor
    · refine ⟨withStops layer g (g.stops.filter (fun s => s.id ≠ stopId)),
        { g with stops := g.stops.filter (fun s => s.id ≠ stopId) }, ?_, rfl, ?_⟩
      · exact lookup_setLayer st.layers layerId _ (by rw [hl]; rfl)
      · -- at most one stop is removed
        have hcount := countP_le_one_of_nodup g.stops stopId hids
        have hfloor := filter_ne_length_floor g.stops stopId hcount
        show 2 ≤ (g.stops.filter (fun s => s.id ≠ stopId)).length
        omega
    · intro hx
      omega

def c3Gradient : Gradient :=
  ⟨GradientType.linear,
   [⟨"a", 0, "#000000", 1, none⟩, ⟨"b", 1, "#FFFFFF", 1, none⟩],
   0, ⟨0.5, 0.5⟩, none, none, none⟩

def c3Layer : Layer := ⟨"l", 0, 0, 100, 100, 0, Fill.gradient c3Gradient⟩

def c3State : EditorState := ⟨[("l", c3Layer)], ["l"], ["l"], [], []⟩

/-- Counterexample to C3 as stated: a state holding one layer with a
2-stop gradient, on which `removeGradientStop` is a rejected removal but
does NOT leave the whole state unchanged — it pushes an undo snapshot onto
the history before rejecting. -/
theorem removeGradientStop_cex :
    c3Layer.fill = Fill.gradient c3Gradient ∧
    c3Gradient.stops.length = 2 ∧
    lookupLayer c3State.layers "l" = some c3Layer ∧
    removeGradientStop c3State "l" "a" ≠ c3State := by
  refine ⟨rfl, rfl, rfl, ?_⟩
  intro h
  have h1 : removeGradientStop c3State "l" "a" = saveSnapshot c3State := rfl
  have h2 := congrArg (fun s => s.historyPast.length) (h1.symm.trans h)
  simp [saveSnapshot, c3State, MAX_HISTORY] at h2

/-- Witness for C3 (amended) on the concrete 2-stop state. -/
theorem removeGradientStop_floor_witness :
    (∃ layer2 g2,
      lookupLayer (removeGradientStop c3State "l" "b").layers "l" = some layer2 ∧
      layer2.fill = Fill.gradient g2 ∧ 2 ≤ g2.stops.length) ∧
    (removeGradientStop c3State "l" "b").layers = c3State.layers :=
  ⟨(removeGradientStop_floor c3State "l" "b" c3Layer c3Gradient rfl rfl
      (by decide) (by decide)).1,
   ((removeGradientStop_floor c3State "l" "b" c3Layer c3Gradient rfl rfl
      (by decide) (by decide)).2 (by decide)).1⟩

/-! ## Claim C6 -/

instance : IsTotal GradientStop (fun a b => a.offset ≤ b.offset) :=
  ⟨fun a b => le_total a.offset b.offset⟩

instance : IsTrans GradientStop (fun a b => a.offset ≤ b.offset) :=
  ⟨fun _ _ _ h1 h2 => le_trans h1 h2⟩

/-- A patch that does not set `id` leaves the multiset of stop ids of
`updateStopList` unchanged. -/
theorem updateStopList_ids (stops : List GradientStop) (stopId : String) (u : StopPatch)
    (hid : u.id = none) :
    ((updateStopList stops stopId u).map (fun s => s.id)).Perm
      (stops.map (fun s => s.id)) := by
  have hperm := List.perm_insertionSort (fun a b : GradientStop => a.offset ≤ b.offset)
    (stops.map (fun s => if s.id = stopId then applyStopPatch s u else s))
  have h1 : ((updateStopList stops stopId u).map (fun s => s.id)).Perm
      (((stops.map (fun s => if s.id = stopId then applyStopPatch s u else s))).map
        (fun s => s.id)) := hperm.map _
  refine h1.trans ?_
  rw [List.map_map]
  have : ((fun s : GradientStop => s.id) ∘
      (fun s => if s.id = stopId then applyStopPatch s u else s)) =
      (fun s : GradientStop => s.id) := by
    funext s
    by_cases hs : s.id = stopId
    · simp [hs, applyStopPatch, hid]
    · simp [hs]
  rw [this]

/-- Any sequence of offset edits leaves the multiset of stop ids
unchanged. -/
theorem applyOffsetEdits_ids (es : List (String × ℝ)) (stops : List GradientStop) :
    ((applyOffsetEdits stops es).map (fun s => s.id)).Perm
      (stops.map (fun s => s.id)) := by
  induction es generalizing stops with
  | nil => exact List.Perm.refl _
  | cons e es ih =>
    have hstep := updateStopList_ids stops e.1 ⟨none, some e.2, none, none, none⟩ rfl
    have : applyOffsetEdits stops (e :: es) =
        applyOffsetEdits (updateStopList stops e.1 ⟨none, some e.2, none, none, none⟩) es := rfl
    rw [this]
    exact (ih _).trans hstep

/-- C6 (amended): `updateGradientStop`'s stop-list transform with any field
updates that do not set `id` returns a list sorted ascending by offset
(stable sort on ties) with exactly the input's stop ids, and ids are
preserved across any sequence of offset edits. -/
theorem updateStopList_spec (stops : List GradientStop) (stopId : String) (u : StopPatch)
    (hid : u.id = none) :
    List.Sorted (fun a b : GradientStop => a.offset ≤ b.offset)
      (updateStopList stops stopId u) ∧
    ((updateStopList stops stopId u).map (fun s => s.id)).Perm
      (stops.map (fun s => s.id)) ∧
    ∀ es : List (String × ℝ),
      ((applyOffsetEdits stops es).map (fun s => s.id)).Perm
        (stops.map (fun s => s.id)) :=
  ⟨List.sorted_insertionSort _ _, updateStopList_ids stops stopId u hid,
   fun es => applyOffsetEdits_ids es stops⟩

def c6Stops : List GradientStop :=
  [⟨"a", 0, "#000000", 1, none⟩, ⟨"b", 1, "#FFFFFF", 1, none⟩]

/-- Counterexample to C6 as stated: `Partial<GradientStop>` admits an `id`
field, and an update that sets it changes the set of stop ids. -/
theorem updateStopList_cex :
    ¬ (((updateStopList c6Stops "a" ⟨some "z", none, none, none, none⟩).map
        (fun s => s.id)).Perm (c6Stops.map (fun s => s.id))) := by
  have hmap : c6Stops.map
      (fun s => if s.id = "a" then applyStopPatch s ⟨some "z", none, none, none, none⟩ else s) =
      [⟨"z", 0, "#000000", 1, none⟩, ⟨"b", 1, "#FFFFFF", 1, none⟩] := by
    simp [c6Stops, applyStopPatch]
  have hs : updateStopList c6Stops "a" ⟨some "z", none, none, none, none⟩ =
      [⟨"z", 0, "#000000", 1, none⟩, ⟨"b", 1, "#FFFFFF", 1, none⟩] := by
    rw [updateStopList, hmap, sortStops]
    rw [List.insertionSort, List.insertionSort, List.insertionSort]
    rw [List.orderedInsert, List.orderedInsert]
    rw [if_pos (by norm_num)]
  rw [hs]
  intro h
  have := h.mem_iff.mpr (show "a" ∈ c6Stops.map (fun s => s.id) by simp [c6Stops])
  simp at this

/-- Witness for C6 (amended) on a concrete offset edit. -/
theorem updateStopList_spec_witness :
    List.Sorted (fun a b : GradientStop => a.offset ≤ b.offset)
      (updateStopList c6Stops "a" ⟨none, some 0.7, none, none, none⟩) ∧
    ((updateStopList c6Stops "a" ⟨none, some 0.7, none, none, none⟩).map
      (fun s => s.id)).Perm (c6Stops.map (fun s => s.id)) :=
  ⟨(updateStopList_spec c6Stops "a" ⟨none, some 0.7, none, none, none⟩ rfl).1,
   (updateStopList_spec c6Stops "a" ⟨none, some 0.7, none, none, none⟩ rfl).2.1⟩

/-! ## Claim C4 -/

/-- For a gradient angle in `[0, 360)`, the conic parameter lies in
`[0, 1)` for every pointer position: the wrap formula never leaves one
turn. -/
theorem conicT_mem (mx my : ℝ) (g : Gradient) (w h : ℝ)
    (ha0 : 0 ≤ g.angle) (ha1 : g.angle < 360) :
    0 ≤ conicT mx my g w h ∧ conicT mx my g w h < 1 := by
  have hpi := Real.pi_pos
  obtain ⟨hA1, hA2⟩ := jsAtan2_mem
    (y := my - g.center.y * h) (x := mx - g.center.x * w)
  set A := jsAtan2 (my - g.center.y * h) (mx - g.center.x * w) with hA
  have hdeg1 : A * 180 / Real.pi ≤ 180 := by
    rw [div_le_iff hpi]
    nlinarith
  have hdeg2 : -180 < A * 180 / Real.pi := by
    rw [lt_div_iff hpi]
    nlinarith
  have hx1 : 0 ≤ A * 180 / Real.pi + 90 + 360 := by linarith
  obtain ⟨hr1a, hr1b⟩ := jsRem_nonneg_lt hx1 (by norm_num : (0:ℝ) < 360)
  have hx2 : 0 ≤ jsRem (A * 180 / Real.pi + 90 + 360) 360 - g.angle + 360 := by linarith
  obtain ⟨hr2a, hr2b⟩ := jsRem_nonneg_lt hx2 (by norm_num : (0:ℝ) < 360)
  unfold conicT
  rw [← hA]
  constructor
  · positivity
  · rw [div_lt_one (by norm_num : (0:ℝ) < 360)]
    exact hr2b

/-- C4 (amended): for linear and radial gradients `getGradientT` is clamped
into `[0, 1]` and a zero-length axis yields `t = 0`; for a conic gradient
whose stored angle lies in `[0, 360)`, `t` lies in `[0, 1)` for every
pointer position. -/
theorem getGradientT_spec (g : Gradient) (w h mx my : ℝ) :
    ((g.type = GradientType.linear ∨ g.type = GradientType.radial) →
      0 ≤ getGradientT mx my g w h ∧ getGradientT mx my g w h ≤ 1 ∧
      (gradAxisLenSq g w h = 0 → getGradientT mx my g w h = 0)) ∧
    (g.type = GradientType.conic → 0 ≤ g.angle → g.angle < 360 →
      0 ≤ getGradientT mx my g w h ∧ getGradientT mx my g w h < 1) := by
  constructor
  · intro htype
    have hnc : ¬ (g.type = GradientType.conic) := by
      rcases htype with ht | ht <;> simp [ht]
    rw [getGradientT, if_neg hnc]
    by_cases hlen : gradAxisLenSq g w h = 0
    · rw [if_pos hlen]
      norm_num
    · rw [if_neg hlen]
      refine ⟨le_max_left 0 _, max_le (by norm_num) (min_le_left 1 _), fun hx => absurd hx hlen⟩
  · intro htype ha0 ha1
    rw [getGradientT, if_pos htype]
    exact conicT_mem mx my g w h ha0 ha1

def c4Gradient : Gradient := ⟨GradientType.conic, [], 720, ⟨0, 0⟩, none, none, none⟩

/-- Counterexample to C4 as stated: a conic gradient whose stored angle is
`720` sends the pointer `(1, 0)` (layer 1×1, center `(0,0)`) to
`t = -3/4 ∉ [0, 1)` — the wrap formula only shifts by one `+360`. -/
theorem getGradientT_cex :
    c4Gradient.type = GradientType.conic ∧
    getGradientT 1 0 c4Gradient 1 1 = -(3/4 : ℝ) ∧
    ¬ (0 ≤ getGradientT 1 0 c4Gradient 1 1) := by
  have hval : getGradientT 1 0 c4Gradient 1 1 = -(3/4 : ℝ) := by
    have ha : jsAtan2 ((0:ℝ) - (0:ℝ) * 1) ((1:ℝ) - (0:ℝ) * 1) = 0 := by
      rw [jsAtan2, if_pos (by norm_num : (0:ℝ) < 1 - (0:ℝ) * 1)]
      norm_num [Real.arctan_zero]
    have hr1 : jsRem (450:ℝ) 360 = 90 := by
      rw [jsRem, jsTrunc, if_pos (by norm_num : (0:ℝ) ≤ 450/360)]
      norm_num
    have hr2 : jsRem (-270:ℝ) 360 = -270 := by
      rw [jsRem, jsTrunc, if_neg (by norm_num : ¬ ((0:ℝ) ≤ -270/360))]
      norm_num
    rw [getGradientT, if_pos (show c4Gradient.type = GradientType.conic from rfl)]
    rw [conicT]
    show jsRem (jsRem (jsAtan2 (0 - (0:ℝ) * 1) (1 - (0:ℝ) * 1) * 180 / Real.pi
        + 90 + 360) 360 - 720 + 360) 360 / 360 = _
    rw [ha]
    rw [show (0:ℝ) * 180 / Real.pi + 90 + 360 = 450 by norm_num]
    rw [hr1]
    rw [show (90:ℝ) - 720 + 360 = -270 by norm_num]
    rw [hr2]
    norm_num
  refine ⟨rfl, hval, ?_⟩
  rw [hval]
  norm_num

def c4ConicW : Gradient := ⟨GradientType.conic, [], 0, ⟨0, 0⟩, none, none, none⟩

def c4LinearW : Gradient :=
  ⟨GradientType.linear, [], 0, ⟨0.5, 0.5⟩, some ⟨0, 0⟩, some ⟨1, 0⟩, none⟩

/-- Witness for C4 (amended) at a conic gradient with angle `0` and a
linear gradient with explicit handles. -/
theorem getGradientT_spec_witness :
    (0 ≤ getGradientT 1 0 c4ConicW 1 1 ∧ getGradientT 1 0 c4ConicW 1 1 < 1) ∧
    (0 ≤ getGradientT 1 0 c4LinearW 1 1 ∧ getGradientT 1 0 c4LinearW 1 1 ≤ 1) := by
  refine ⟨(getGradientT_spec c4ConicW 1 1 1 0).2 rfl (le_refl 0)
    (by show (0:ℝ) < 360; norm_num), ?_⟩
  have h := (getGradientT_spec c4LinearW 1 1 1 0).1 (Or.inl rfl)
  exact ⟨h.1, h.2.1⟩

/-! ## Claim C9 -/

/-- C9: for every non-conic gradient, both the offset committed by a
`move-stop` drag and the offset of a click on the gradient line are clamped
into `[0.01, 0.99]` and so never land at exactly `0` or `1`. -/
theorem clampedStopOffsets_spec (g : Gradient) (w h mx my : ℝ)
    (hnc : g.type ≠ GradientType.conic) :
    0.01 ≤ moveStopOffset g w h mx my ∧ moveStopOffset g w h mx my ≤ 0.99 ∧
    moveStopOffset g w h mx my ≠ 0 ∧ moveStopOffset g w h mx my ≠ 1 ∧
    0.01 ≤ lineClickOffset g w h mx my ∧ lineClickOffset g w h mx my ≤ 0.99 ∧
    lineClickOffset g w h mx my ≠ 0 ∧ lineClickOffset g w h mx my ≠ 1 := by
  have hm : moveStopOffset g w h mx my =
      max 0.01 (min 0.99 (getProjectionT g w h mx my)) := by
    rw [moveStopOffset, if_pos hnc]
  have h1 : (0.01 : ℝ) ≤ moveStopOffset g w h mx my := by
    rw [hm]
    exact le_max_left _ _
  have h2 : moveStopOffset g w h mx my ≤ 0.99 := by
    rw [hm]
    exact max_le (by norm_num) (min_le_left _ _)
  have h5 : (0.01 : ℝ) ≤ lineClickOffset g w h mx my := le_max_left _ _
  have h6 : lineClickOffset g w h mx my ≤ 0.99 :=
    max_le (by norm_num) (min_le_left _ _)
  refine ⟨h1, h2, ?_, ?_, h5, h6, ?_, ?_⟩
  · intro hx
    rw [hx] at h1
    norm_num at h1
  · intro hx
    rw [hx] at h2
    norm_num at h2
  · intro hx
    rw [hx] at h5
    norm_num at h5
  · intro hx
    rw [hx] at h6
    norm_num at h6

def c9Gradient : Gradient :=
  ⟨GradientType.linear, [], 0, ⟨0.5, 0.5⟩, some ⟨0, 0⟩, some ⟨1, 0⟩, none⟩

/-- Witness for C9 at a concrete linear gradient and pointer position. -/
theorem clampedStopOffsets_spec_witness :
    0.01 ≤ moveStopOffset c9Gradient 1 1 (1/2) 0 ∧
    moveStopOffset c9Gradient 1 1 (1/2) 0 ≤ 0.99 ∧
    moveStopOffset c9Gradient 1 1 (1/2) 0 ≠ 0 ∧
    moveStopOffset c9Gradient 1 1 (1/2) 0 ≠ 1 ∧
    0.01 ≤ lineClickOffset c9Gradient 1 1 (1/2) 0 ∧
    lineClickOffset c9Gradient 1 1 (1/2) 0 ≤ 0.99 ∧
    lineClickOffset c9Gradient 1 1 (1/2) 0 ≠ 0 ∧
    lineClickOffset c9Gradient 1 1 (1/2) 0 ≠ 1 :=
  clampedStopOffsets_spec c9Gradient 1 1 (1/2) 0 (by simp [c9Gradient])

/-! ## Claim C7 -/

/-- C7: during a rotate gesture on a linear gradient, when both explicit
handles are stored at gesture start, every pointer-move yields new handles
whose pixel-space midpoint is the frozen midpoint of the original handles
and whose pixel-space separation distance is the frozen original
separation; when the gradient stores only an angle, the update sets the
angle alone and introduces no `start`/`end` points. -/
theorem rotateGesture_spec (g : Gradient) (w h mx my : ℝ) :
    (∀ s e : Vec2, g.type = GradientType.linear → g.start = some s → g.endP = some e →
      w ≠ 0 → h ≠ 0 →
      ∃ ns ne : Vec2,
        (rotateMove (rotateFreeze g w h) g w h mx my).start = some ns ∧
        (rotateMove (rotateFreeze g w h) g w h mx my).endP = some ne ∧
        (ns.x * w + ne.x * w) / 2 = (s.x * w + e.x * w) / 2 ∧
        (ns.y * h + ne.y * h) / 2 = (s.y * h + e.y * h) / 2 ∧
        Real.sqrt ((ne.x * w - ns.x * w) * (ne.x * w - ns.x * w)
          + (ne.y * h - ns.y * h) * (ne.y * h - ns.y * h)) =
        Real.sqrt ((e.x * w - s.x * w) * (e.x * w - s.x * w)
          + (e.y * h - s.y * h) * (e.y * h - s.y * h))) ∧
    (g.type = GradientType.linear → g.start = none → g.endP = none →
      (rotateMove (rotateFreeze g w h) g w h mx my).start = none ∧
      (rotateMove (rotateFreeze g w h) g w h mx my).endP = none ∧
      (rotateMove (rotateFreeze g w h) g w h mx my).angle =
        some (rotateCssDeg (rotateFreeze g w h) mx my)) := by
  constructor
  · intro s e ht hs he hw hh
    set st := rotateFreeze g w h with hst
    have hpb : st.isPointBased = true := by
      rw [hst, rotateFreeze]
      simp [ht, hs, he]
    have hcond : (st.isPointBased = true) ∧ g.type = GradientType.linear := ⟨hpb, ht⟩
    have hmove : rotateMove st g w h mx my =
        { angle := some (rotateCssDeg st mx my),
          start := some
            ⟨(st.center.x - Real.cos (jsAtan2 (my - st.center.y) (mx - st.center.x))
                * (st.currentLen / 2)) / w,
             (st.center.y - Real.sin (jsAtan2 (my - st.center.y) (mx - st.center.x))
                * (st.currentLen / 2)) / h⟩,
          endP := some
            ⟨(st.center.x + Real.cos (jsAtan2 (my - st.center.y) (mx - st.center.x))
                * (st.currentLen / 2)) / w,
             (st.center.y + Real.sin (jsAtan2 (my - st.center.y) (mx - st.center.x))
                * (st.currentLen / 2)) / h⟩ } := by
      rw [rotateMove, if_pos]
      exact ⟨by rw [hpb], ht⟩
    rw [hmove]
    set rad := jsAtan2 (my - st.center.y) (mx - st.center.x) with hrad
    refine ⟨_, _, rfl, rfl, ?_, ?_, ?_⟩
    · -- x midpoint: the frozen center is the original handle midpoint
      have hcx : st.center.x = (s.x * w + e.x * w) / 2 := by
        rw [hst, rotateFreeze]
        show (rotCenter g w h).x = _
        rw [rotCenter, if_pos ht]
        show ((renderStart g).x * w + (renderEnd g).x * w) / 2 = _
        rw [renderStart, renderEnd, hs, he]
        rfl
      rw [← hcx]
      field_simp
      ring
    · have hcy : st.center.y = (s.y * h + e.y * h) / 2 := by
        rw [hst, rotateFreeze]
        show (rotCenter g w h).y = _
        rw [rotCenter, if_pos ht]
        show ((renderStart g).y * h + (renderEnd g).y * h) / 2 = _
        rw [renderStart, renderEnd, hs, he]
        rfl
      rw [← hcy]
      field_simp
      ring
    · -- separation distance equals the frozen length
      have hlen : st.currentLen =
          Real.sqrt ((e.x * w - s.x * w) * (e.x * w - s.x * w)
            + (e.y * h - s.y * h) * (e.y * h - s.y * h)) := by
        rw [hst, rotateFreeze]
        show Real.sqrt ((((renderEnd g).x - (renderStart g).x) * w)
            * (((renderEnd g).x - (renderStart g).x) * w)
          + (((renderEnd g).y - (renderStart g).y) * h)
            * (((renderEnd g).y - (renderStart g).y) * h)) = _
        rw [renderStart, renderEnd, hs, he]
        show Real.sqrt ((e.x - s.x) * w * ((e.x - s.x) * w)
          + (e.y - s.y) * h * ((e.y - s.y) * h)) = _
        ring_nf
      have hL0 : 0 ≤ st.currentLen := by
        rw [hst, rotateFreeze]
        exact Real.sqrt_nonneg _
      rw [← hlen]
      have hdx : (st.center.x + Real.cos rad * (st.currentLen / 2)) / w * w
          - (st.center.x - Real.cos rad * (st.currentLen / 2)) / w * w
          = st.currentLen * Real.cos rad := by
        field_simp
        ring
      have hdy : (st.center.y + Real.sin rad * (st.currentLen / 2)) / h * h
          - (st.center.y - Real.sin rad * (st.currentLen / 2)) / h * h
          = st.currentLen * Real.sin rad := by
        field_simp
        ring
      have key : ((st.center.x + Real.cos rad * (st.currentLen / 2)) / w * w
            - (st.center.x - Real.cos rad * (st.currentLen / 2)) / w * w)
          * ((st.center.x + Real.cos rad * (st.currentLen / 2)) / w * w
            - (st.center.x - Real.cos rad * (st.currentLen / 2)) / w * w)
          + ((st.center.y + Real.sin rad * (st.currentLen / 2)) / h * h
            - (st.center.y - Real.sin rad * (st.currentLen / 2)) / h * h)
          * ((st.center.y + Real.sin rad * (st.currentLen / 2)) / h * h
            - (st.center.y - Real.sin rad * (st.currentLen / 2)) / h * h)
          = st.currentLen ^ 2 := by
        rw [hdx, hdy]
        have hpyth := Real.sin_sq_add_cos_sq rad
        nlinarith [hpyth]
      show Real.sqrt (((st.center.x + Real.cos rad * (st.currentLen / 2)) / w * w
            - (st.center.x - Real.cos rad * (st.currentLen / 2)) / w * w)
          * ((st.center.x + Real.cos rad * (st.currentLen / 2)) / w * w
            - (st.center.x - Real.cos rad * (st.currentLen / 2)) / w * w)
          + ((st.center.y + Real.sin rad * (st.currentLen / 2)) / h * h
            - (st.center.y - Real.sin rad * (st.currentLen / 2)) / h * h)
          * ((st.center.y + Real.sin rad * (st.currentLen / 2)) / h * h
            - (st.center.y - Real.sin rad * (st.currentLen / 2)) / h * h))
          = st.currentLen
      rw [key]
      exact Real.sqrt_sq hL0
  · intro ht hs he
    have hpb : (rotateFreeze g w h).isPointBased = false := by
      rw [rotateFreeze]
      simp [hs]
    have hmove : rotateMove (rotateFreeze g w h) g w h mx my =
        { angle := some (rotateCssDeg (rotateFreeze g w h) mx my) } := by
      rw [rotateMove, if_neg]
      intro hc
      rw [hpb] at hc
      exact Bool.false_ne_true hc.1
    rw [hmove]
    exact ⟨rfl, rfl, rfl⟩

def c7Gradient : Gradient :=
  ⟨GradientType.linear, [], 0, ⟨0.5, 0.5⟩, some ⟨0, 0⟩, some ⟨1, 0⟩, none⟩

/-- Witness for C7 at a concrete point-based linear gradient and pointer
position. -/
theorem rotateGesture_spec_witness :
    ∃ ns ne : Vec2,
      (rotateMove (rotateFreeze c7Gradient 1 1) c7Gradient 1 1 (3/2) 0).start = some ns ∧
      (rotateMove (rotateFreeze c7Gradient 1 1) c7Gradient 1 1 (3/2) 0).endP = some ne ∧
      (ns.x * 1 + ne.x * 1) / 2 = ((0:ℝ) * 1 + 1 * 1) / 2 ∧
      (ns.y * 1 + ne.y * 1) / 2 = ((0:ℝ) * 1 + 0 * 1) / 2 ∧
      Real.sqrt ((ne.x * 1 - ns.x * 1) * (ne.x * 1 - ns.x * 1)
        + (ne.y * 1 - ns.y * 1) * (ne.y * 1 - ns.y * 1)) =
      Real.sqrt (((1:ℝ) * 1 - 0 * 1) * ((1:ℝ) * 1 - 0 * 1)
        + ((0:ℝ) * 1 - 0 * 1) * ((0:ℝ) * 1 - 0 * 1)) :=
  (rotateGesture_spec c7Gradient 1 1 (3/2) 0).1 ⟨0, 0⟩ ⟨1, 0⟩ rfl rfl rfl
    one_ne_zero one_ne_zero

/-! ## Claim C5 -/

theorem hexToRgb_black : hexToRgbStruct "#000000" = ⟨0, 0, 0⟩ := by
  have h : hexDigitsOf "#000000" = ['0','0','0','0','0','0'] := by decide
  simp [hexToRgbStruct, h, hexPairAt, hexDigit]

theorem hexToRgb_white : hexToRgbStruct "#FFFFFF" = ⟨1, 1, 1⟩ := by
  have h : hexDigitsOf "#FFFFFF" = ['F','F','F','F','F','F'] := by decide
  rw [hexToRgbStruct, h]
  rw [if_neg (by decide : ¬ (['F','F','F','F','F','F'].length = 3))]
  rw [show hexPairAt ['F','F','F','F','F','F'] 0 = 255 from rfl,
    show hexPairAt ['F','F','F','F','F','F'] 2 = 255 from rfl,
    show hexPairAt ['F','F','F','F','F','F'] 4 = 255 from rfl]
  norm_num

/-- The linear-light midpoint of black and white encodes to byte `188`
(`0xBC`), visibly lighter than the naive sRGB midpoint `128` (`0x80`). -/
theorem bandingByte_half : bandingByte 0 1 (1/2) = 188 := by
  have hlin0 : srgbToLinear 0 = 0 := by
    rw [srgbToLinear, if_pos (by norm_num : (0:ℝ) ≤ 0.04045)]
    norm_num
  have hlin1 : srgbToLinear 1 = 1 := by
    rw [srgbToLinear, if_neg (by norm_num : ¬ ((1:ℝ) ≤ 0.04045))]
    rw [show ((1:ℝ) + 0.055) / 1.055 = 1 by norm_num]
    exact Real.one_rpow _
  have hexp : ((1:ℝ)/2.4) = ((5 : ℕ) : ℝ) / ((12 : ℕ) : ℝ) := by norm_num
  have hq1 : (0.7491535 : ℝ) ≤ ((1:ℝ)/2) ^ (((5 : ℕ) : ℝ) / ((12 : ℕ) : ℝ)) := by
    apply le_rpow_ratio 5 12 (by norm_num) (by norm_num)
    norm_num
  have hq2 : ((1:ℝ)/2) ^ (((5 : ℕ) : ℝ) / ((12 : ℕ) : ℝ)) ≤ 0.7491536 := by
    apply rpow_ratio_le 5 12 (by norm_num) (by norm_num) (by norm_num)
    norm_num
  rw [bandingByte, hlin0, hlin1]
  rw [show (0:ℝ) + (1 - 0) * (1/2) = 1/2 by norm_num]
  rw [linearToSrgb, if_neg (by norm_num : ¬ ((1:ℝ)/2 ≤ 0.0031308)), hexp]
  have hval1 : (0.7353569425 : ℝ) ≤
      1.055 * ((1:ℝ)/2) ^ (((5 : ℕ) : ℝ) / ((12 : ℕ) : ℝ)) - 0.055 := by nlinarith
  have hval2 : 1.055 * ((1:ℝ)/2) ^ (((5 : ℕ) : ℝ) / ((12 : ℕ) : ℝ)) - 0.055
      ≤ (0.7353570480 : ℝ) := by nlinarith
  have hclamp : clamp01 (1.055 * ((1:ℝ)/2) ^ (((5 : ℕ) : ℝ) / ((12 : ℕ) : ℝ)) - 0.055)
      = 1.055 * ((1:ℝ)/2) ^ (((5 : ℕ) : ℝ) / ((12 : ℕ) : ℝ)) - 0.055 := by
    rw [clamp01, max_eq_right (by linarith), min_eq_right (by linarith)]
  rw [hclamp]
  have hfloor : jsRound ((1.055 * ((1:ℝ)/2) ^ (((5 : ℕ) : ℝ) / ((12 : ℕ) : ℝ)) - 0.055)
      * 255) = 188 := by
    rw [jsRound, Int.floor_eq_iff]
    constructor
    · push_cast
      nlinarith
    · push_cast
      nlinarith
  rw [hfloor]
  rfl

theorem bandingHex_half : bandingHex ⟨0, 0, 0⟩ ⟨1, 1, 1⟩ (1/2) = "#BCBCBC" := by
  rw [bandingHex]
  show "#" ++ natToHex2U (bandingByte 0 1 (1/2)) ++ natToHex2U (bandingByte 0 1 (1/2))
      ++ natToHex2U (bandingByte 0 1 (1/2)) = _
  rw [bandingByte_half]
  rfl

def bwStops (id0 id1 : String) (op0 op1 : ℝ) : List GradientStop :=
  [⟨id0, 0, "#000000", op0, none⟩, ⟨id1, 1, "#FFFFFF", op1, none⟩]

/-- Evaluation of `fixGradientBanding` on the black-to-white pair. -/
theorem fixGradientBanding_bw (idGen : ℕ → ℕ → String) (id0 id1 : String) (op0 op1 : ℝ) :
    fixGradientBanding idGen (bwStops id0 id1 op0 op1) =
      ⟨id0, 0, "#000000", op0, none⟩ ::
      ((List.range 7).map (fun k0 =>
        (⟨idGen 0 (k0 + 1),
          0 + (1 - 0) * ((k0 + 1 : ℕ) : ℝ) / 8,
          bandingHex (hexToRgbStruct "#000000") (hexToRgbStruct "#FFFFFF")
            (((k0 + 1 : ℕ) : ℝ) / 8),
          op0 + (op1 - op0) * (((k0 + 1 : ℕ) : ℝ) / 8),
          none⟩ : GradientStop))
      ++ [⟨id1, 1, "#FFFFFF", op1, none⟩]) := by
  have hsort : sortStops (bwStops id0 id1 op0 op1) = bwStops id0 id1 op0 op1 := by
    unfold sortStops bwStops
    rw [List.insertionSort, List.insertionSort, List.insertionSort,
      List.orderedInsert, List.orderedInsert]
    rw [if_pos (by show (0:ℝ) ≤ 1; norm_num)]
  have hseg : bandingSegment idGen 0 ⟨id0, 0, "#000000", op0, none⟩
      ⟨id1, 1, "#FFFFFF", op1, none⟩ =
      ⟨id0, 0, "#000000", op0, none⟩ ::
        bandingInserted idGen 0 ⟨id0, 0, "#000000", op0, none⟩
          ⟨id1, 1, "#FFFFFF", op1, none⟩ := by
    rw [bandingSegment]
    rw [if_neg (by show ¬ ((1:ℝ) - 0 < 0.005); norm_num)]
    rw [if_neg]
    rw [hexToRgb_black, hexToRgb_white]
    show ¬ (colorDist ⟨0, 0, 0⟩ ⟨1, 1, 1⟩ < 0.05)
    rw [colorDist]
    norm_num
  rw [fixGradientBanding, hsort]
  rw [if_neg (by show ¬ (bwStops id0 id1 op0 op1).length < 2; norm_num [bwStops])]
  show bandingChain idGen 0
      (⟨id0, 0, "#000000", op0, none⟩ :: ⟨id1, 1, "#FFFFFF", op1, none⟩ :: []) = _
  rw [bandingChain, bandingChain, hseg]
  rw [bandingInserted]
  rfl

/-- C5: on `[⟨0, '#000000'⟩, ⟨1, '#FFFFFF'⟩]` the anti-banding resample
yields exactly 9 stops — the two originals preserved exactly as first and
last plus 7 inserted stops at the 8 equal sub-intervals, with fresh ids
from the id supply (distinct ids when the supplied ids are) — the 5th
stop's color is the linear-light blend `#BCBCBC` at `t = 0.5`; and for
every adjacent pair below the `0.005` offset-gap or `0.05` channel-sum
distance threshold no stops are inserted. -/
theorem fixGradientBanding_spec :
    (∀ (idGen : ℕ → ℕ → String) (id0 id1 : String) (op0 op1 : ℝ),
      (fixGradientBanding idGen (bwStops id0 id1 op0 op1)).length = 9 ∧
      (fixGradientBanding idGen (bwStops id0 id1 op0 op1)).head? =
        some ⟨id0, 0, "#000000", op0, none⟩ ∧
      (fixGradientBanding idGen (bwStops id0 id1 op0 op1)).getLast? =
        some ⟨id1, 1, "#FFFFFF", op1, none⟩ ∧
      (∀ k : ℕ, 1 ≤ k → k ≤ 7 → ∃ stp : GradientStop,
        (fixGradientBanding idGen (bwStops id0 id1 op0 op1))[k]? = some stp ∧
        stp.id = idGen 0 k ∧ stp.offset = (k : ℝ) / 8 ∧
        stp.opacity = op0 + (op1 - op0) * ((k : ℝ) / 8)) ∧
      ((fixGradientBanding idGen (bwStops id0 id1 op0 op1))[4]?.map
        (fun s => s.color)) = some "#BCBCBC" ∧
      ((id0 :: id1 :: (List.range 7).map (fun k0 => idGen 0 (k0 + 1))).Nodup →
        ((fixGradientBanding idGen (bwStops id0 id1 op0 op1)).map
          (fun s => s.id)).Nodup)) ∧
    (∀ (idGen : ℕ → ℕ → String) (i : ℕ) (s e : GradientStop),
      (e.offset - s.offset < 0.005 ∨
        colorDist (hexToRgbStruct s.color) (hexToRgbStruct e.color) < 0.05) →
      bandingSegment idGen i s e = [s]) := by
  constructor
  · intro idGen id0 id1 op0 op1
    rw [fixGradientBanding_bw idGen id0 id1 op0 op1]
    rw [hexToRgb_black, hexToRgb_white]
    refine ⟨?_, rfl, ?_, ?_, ?_, ?_⟩
    · simp
    · rw [← List.cons_append]
      exact List.getLast?_concat _
    · intro k hk1 hk7
      obtain ⟨k0, rfl⟩ : ∃ k0, k = k0 + 1 := ⟨k - 1, by omega⟩
      have hk0 : k0 < 7 := by omega
      refine ⟨⟨idGen 0 (k0 + 1), 0 + (1 - 0) * ((k0 + 1 : ℕ) : ℝ) / 8,
        bandingHex ⟨0, 0, 0⟩ ⟨1, 1, 1⟩ (((k0 + 1 : ℕ) : ℝ) / 8),
        op0 + (op1 - op0) * (((k0 + 1 : ℕ) : ℝ) / 8), none⟩, ?_, rfl, ?_, ?_⟩
      · rw [List.getElem?_cons_succ, List.getElem?_append_left (by simpa using hk0),
          List.getElem?_map, List.getElem?_range hk0]
        rfl
      · push_cast
        ring
      · push_cast
        ring
    · rw [show (4 : ℕ) = 3 + 1 from rfl, List.getElem?_cons_succ,
        List.getElem?_append_left (by simp), List.getElem?_map,
        List.getElem?_range (by norm_num : (3:ℕ) < 7)]
      show some (bandingHex ⟨0, 0, 0⟩ ⟨1, 1, 1⟩ (((3 + 1 : ℕ) : ℝ) / 8)) = _
      rw [show (((3 + 1 : ℕ) : ℝ) / 8) = 1/2 by norm_num]
      rw [bandingHex_half]
    · intro hnodup
      have hperm : ((⟨id0, 0, "#000000", op0, none⟩ :: ((List.range 7).map (fun k0 =>
            (⟨idGen 0 (k0 + 1), 0 + (1 - 0) * ((k0 + 1 : ℕ) : ℝ) / 8,
              bandingHex ⟨0, 0, 0⟩ ⟨1, 1, 1⟩ (((k0 + 1 : ℕ) : ℝ) / 8),
              op0 + (op1 - op0) * (((k0 + 1 : ℕ) : ℝ) / 8),
              none⟩ : GradientStop))
            ++ [⟨id1, 1, "#FFFFFF", op1, none⟩])).map (fun s => s.id)).Perm
          (id0 :: id1 :: (List.range 7).map (fun k0 => idGen 0 (k0 + 1))) := by
        rw [List.map_cons, List.map_append, List.map_map]
        refine List.Perm.cons id0 ?_
        rw [show ((fun s : GradientStop => s.id) ∘ (fun k0 : ℕ =>
            (⟨idGen 0 (k0 + 1), 0 + (1 - 0) * ((k0 + 1 : ℕ) : ℝ) / 8,
              bandingHex ⟨0, 0, 0⟩ ⟨1, 1, 1⟩ (((k0 + 1 : ℕ) : ℝ) / 8),
              op0 + (op1 - op0) * (((k0 + 1 : ℕ) : ℝ) / 8),
              none⟩ : GradientStop))) = (fun k0 : ℕ => idGen 0 (k0 + 1)) from rfl]
        show ((List.range 7).map (fun k0 => idGen 0 (k0 + 1)) ++ [id1]).Perm _
        exact List.perm_append_singleton _ _
      exact (hperm.nodup_iff).mpr hnodup
  · intro idGen i s e hlow
    rw [bandingSegment]
    rcases hlow with hlow | hlow
    · rw [if_pos hlow]
    · by_cases hgap : e.offset - s.offset < 0.005
      · rw [if_pos hgap]
      · rw [if_neg hgap, if_pos hlow]

/-- Witness for C5 with a concrete id supply and concrete thresholds. -/
theorem fixGradientBanding_spec_witness :
    (fixGradientBanding (fun i k => "g" ++ toString i ++ "x" ++ toString k)
      (bwStops "a" "b" 1 1)).length = 9 ∧
    ((fixGradientBanding (fun i k => "g" ++ toString i ++ "x" ++ toString k)
      (bwStops "a" "b" 1 1)).map (fun s => s.id)).Nodup ∧
    (∃ stp : GradientStop,
      (fixGradientBanding (fun i k => "g" ++ toString i ++ "x" ++ toString k)
        (bwStops "a" "b" 1 1))[4]? = some stp ∧
      stp.id = "g0x4" ∧ stp.offset = (4 : ℝ) / 8 ∧
      stp.opacity = 1 + (1 - 1) * ((4 : ℝ) / 8)) ∧
    bandingSegment (fun i k => "g" ++ toString i ++ "x" ++ toString k) 0
      ⟨"a", 0, "#111111", 1, none⟩ ⟨"b", 0.001, "#EEEEEE", 1, none⟩ =
      [⟨"a", 0, "#111111", 1, none⟩] := by
  refine ⟨((fixGradientBanding_spec.1 _ "a" "b" 1 1)).1,
    ((fixGradientBanding_spec.1 _ "a" "b" 1 1)).2.2.2.2.2 (by decide), ?_, ?_⟩
  · exact ((fixGradientBanding_spec.1 _ "a" "b" 1 1)).2.2.2.1 4 (by norm_num) (by norm_num)
  · exact fixGradientBanding_spec.2 _ 0 _ _
      (Or.inl (by show (0.001 : ℝ) - 0 < 0.005; norm_num))

/-! ## Claim C2 -/

/-- Cartesian→polar→Cartesian on the `(a, b)` plane is the identity for a
clearly chromatic color in the first quadrant (`EPS < a`, `0 ≤ b`). -/
theorem oklch_polar_roundtrip (L a b : ℝ) (ha : EPS < a) (hb : 0 ≤ b) :
    oklchToOklab (oklabToOklch ⟨L, a, b⟩) = ⟨L, a, b⟩ := by
  have hEPS : (0:ℝ) < EPS := by rw [EPS]; norm_num
  have ha0 : 0 < a := lt_trans hEPS ha
  have haC : a ≤ Real.sqrt (a * a + b * b) := by
    have h1 : Real.sqrt (a * a) = a := Real.sqrt_mul_self ha0.le
    calc a = Real.sqrt (a * a) := h1.symm
    _ ≤ Real.sqrt (a * a + b * b) := Real.sqrt_le_sqrt (by nlinarith)
  have hCpos : 0 < Real.sqrt (a * a + b * b) := lt_of_lt_of_le ha0 haC
  have hCgt : Real.sqrt (a * a + b * b) > EPS := lt_of_lt_of_le ha haC
  have hpi : (0:ℝ) < Real.pi := Real.pi_pos
  have hatan : jsAtan2 b a = Real.arctan (b / a) := by
    rw [jsAtan2, if_pos ha0]
  have harc0 : 0 ≤ Real.arctan (b / a) := by
    have := Real.arctan_strictMono.monotone (div_nonneg hb ha0.le)
    rwa [Real.arctan_zero] at this
  have hraw : oklabHueRaw ⟨L, a, b⟩ = Real.arctan (b / a) * 180 / Real.pi := by
    rw [oklabHueRaw]
    show jsAtan2 b a * 180 / Real.pi = _
    rw [hatan]
  have hraw0 : 0 ≤ oklabHueRaw ⟨L, a, b⟩ := by
    rw [hraw]
    positivity
  have hH : oklabHue ⟨L, a, b⟩ = Real.arctan (b / a) * 180 / Real.pi := by
    rw [oklabHue, if_pos (by exact hCgt), if_neg (not_lt.mpr hraw0), hraw]
  have hHrad : oklabHue ⟨L, a, b⟩ * Real.pi / 180 = Real.arctan (b / a) := by
    rw [hH]
    field_simp
  have hsq : Real.sqrt (1 + (b / a) ^ 2) = Real.sqrt (a * a + b * b) / a := by
    have h1 : 1 + (b / a) ^ 2 = (a * a + b * b) / a ^ 2 := by
      field_simp
      ring
    rw [h1, Real.sqrt_div (by nlinarith) (a ^ 2), Real.sqrt_sq ha0.le]
  have hcos : Real.sqrt (a * a + b * b) * Real.cos (Real.arctan (b / a)) = a := by
    rw [Real.cos_arctan, hsq]
    field_simp
  have hsin : Real.sqrt (a * a + b * b) * Real.sin (Real.arctan (b / a)) = b := by
    rw [Real.sin_arctan, hsq]
    field_simp
  show (⟨L, Real.sqrt (a * a + b * b) * Real.cos (oklabHue ⟨L, a, b⟩ * Real.pi / 180),
      Real.sqrt (a * a + b * b) * Real.sin (oklabHue ⟨L, a, b⟩ * Real.pi / 180)⟩ : OKLab)
      = ⟨L, a, b⟩
  rw [hHrad, hcos, hsin]

/-- Rational upper bound for the sign-preserving cube root. -/
theorem cbrt_le {x q : ℝ} (hx : 0 ≤ x) (hq : 0 ≤ q) (h : x ≤ q ^ 3) : cbrt x ≤ q := by
  rw [cbrt, if_neg (not_lt.mpr hx)]
  rw [show ((1:ℝ)/3) = ((1:ℕ):ℝ)/((3:ℕ):ℝ) by norm_num]
  apply rpow_ratio_le 1 3 (by norm_num) hx hq
  rw [pow_one]
  exact h

/-- Rational lower bound for the sign-preserving cube root. -/
theorem le_cbrt {x q : ℝ} (hx : 0 ≤ x) (h : q ^ 3 ≤ x) : q ≤ cbrt x := by
  rw [cbrt, if_neg (not_lt.mpr hx)]
  rw [show ((1:ℝ)/3) = ((1:ℕ):ℝ)/((3:ℕ):ℝ) by norm_num]
  apply le_rpow_ratio 1 3 (by norm_num) hx
  rw [pow_one]
  exact h

/-- Interval bounds for the componentwise cube `x*x*x` of `oklabToXyz`. -/
theorem cube_bounds {x p q : ℝ} (hp : 0 ≤ p) (h1 : p ≤ x) (h2 : x ≤ q) :
    p * p * p ≤ x * x * x ∧ x * x * x ≤ q * q * q := by
  have hx : 0 ≤ x := le_trans hp h1
  have hq : 0 ≤ q := le_trans hx h2
  have h11 : p * p ≤ x * x := mul_le_mul h1 h1 hp hx
  have h22 : x * x ≤ q * q := mul_le_mul h2 h2 hx hq
  exact ⟨mul_le_mul h11 h1 hp (mul_nonneg hx hx),
    mul_le_mul h22 h2 hx (mul_nonneg hq hq)⟩

/-- Interval bounds for `linearToSrgb` on the power-curve branch, from
12th/5th power comparisons. -/
theorem linearToSrgb_bounds {x p q : ℝ} (hb : 0.0031308 < x)
    (hq : 0 ≤ q) (h1 : p ^ 12 ≤ x ^ 5) (h2 : x ^ 5 ≤ q ^ 12) :
    1.055 * p - 0.055 ≤ linearToSrgb x ∧ linearToSrgb x ≤ 1.055 * q - 0.055 := by
  rw [linearToSrgb, if_neg (not_le.mpr hb)]
  rw [show ((1:ℝ)/2.4) = ((5:ℕ):ℝ)/((12:ℕ):ℝ) by norm_num]
  have hx0 : (0:ℝ) ≤ x := by linarith
  constructor
  · nlinarith [le_rpow_ratio 5 12 (by norm_num) hx0 h1]
  · nlinarith [rpow_ratio_le 5 12 (by norm_num) hx0 hq h2]

/-- Evaluation of one 8-bit channel of `oklchToHex` from interval bounds. -/
theorem round_clamp01 {x : ℝ} {n : ℤ} (hx0 : 0 ≤ x) (hx1 : x ≤ 1)
    (h1 : (n : ℝ) ≤ x * 255 + 1/2) (h2 : x * 255 + 1/2 < (n : ℝ) + 1) :
    jsRound (clamp01 x * 255) = n := by
  rw [clamp01, max_eq_right hx0, min_eq_right hx1, jsRound, Int.floor_eq_iff]
  constructor
  · exact h1
  · push_cast
    linarith

/-- Interval bounds for the OKLab coordinates the source assigns to the
8-bit gray `#808080` (whose linear channel value is `u`). -/
theorem gray_forward (u : ℝ) (hu1 : 0.21586050011 ≤ u) (hu2 : u ≤ 0.21586050012) :
    (0.601816816 ≤ (xyzToOklab (linearSrgbToXyz ⟨u, u, u⟩)).L ∧
      (xyzToOklab (linearSrgbToXyz ⟨u, u, u⟩)).L ≤ 0.601816819) ∧
    (0.016037676 ≤ (xyzToOklab (linearSrgbToXyz ⟨u, u, u⟩)).a ∧
      (xyzToOklab (linearSrgbToXyz ⟨u, u, u⟩)).a ≤ 0.016037687) ∧
    (0.008844255 ≤ (xyzToOklab (linearSrgbToXyz ⟨u, u, u⟩)).b ∧
      (xyzToOklab (linearSrgbToXyz ⟨u, u, u⟩)).b ≤ 0.008844260) := by
  have hXl : xyzLmsL (linearSrgbToXyz ⟨u, u, u⟩) = 1.05194003876381332576 * u := by
    show (0.8189330101:ℝ) * (0.4122214708 * u + 0.5363325363 * u + 0.0514459929 * u)
        + 0.3618667424 * (0.2119034982 * u + 0.6806995451 * u + 0.1073969566 * u)
        - 0.1288597137 * (0.0883024619 * u + 0.2817188376 * u + 0.6299787005 * u)
        = 1.05194003876381332576 * u
    ring
  have hXm : xyzLmsM (linearSrgbToXyz ⟨u, u, u⟩) = 0.99844205370706881285 * u := by
    show (0.0329845436:ℝ) * (0.4122214708 * u + 0.5363325363 * u + 0.0514459929 * u)
        + 0.9293118715 * (0.2119034982 * u + 0.6806995451 * u + 0.1073969566 * u)
        + 0.0361456387 * (0.0883024619 * u + 0.2817188376 * u + 0.6299787005 * u)
        = 0.99844205370706881285 * u
    ring
  have hXs : xyzLmsS (linearSrgbToXyz ⟨u, u, u⟩) = 0.94641827787356337309 * u := by
    show (0.0482003018:ℝ) * (0.4122214708 * u + 0.5363325363 * u + 0.0514459929 * u)
        + 0.2643662691 * (0.2119034982 * u + 0.6806995451 * u + 0.1073969566 * u)
        + 0.6338517070 * (0.0883024619 * u + 0.2817188376 * u + 0.6299787005 * u)
        = 0.94641827787356337309 * u
    ring
  have hcl1 : (0.610081779 : ℝ) ≤ cbrt (xyzLmsL (linearSrgbToXyz ⟨u, u, u⟩)) := by
    rw [hXl]
    apply le_cbrt (by nlinarith)
    refine le_trans (by norm_num) (?_ :
      (1.05194003876381332576:ℝ) * 0.21586050011 ≤ 1.05194003876381332576 * u)
    linarith
  have hcl2 : cbrt (xyzLmsL (linearSrgbToXyz ⟨u, u, u⟩)) ≤ 0.610081781 := by
    rw [hXl]
    apply cbrt_le (by nlinarith) (by norm_num)
    refine le_trans (?_ :
      (1.05194003876381332576:ℝ) * u ≤ 1.05194003876381332576 * 0.21586050012)
      (by norm_num)
    linarith
  have hcm1 : (0.599559120 : ℝ) ≤ cbrt (xyzLmsM (linearSrgbToXyz ⟨u, u, u⟩)) := by
    rw [hXm]
    apply le_cbrt (by nlinarith)
    refine le_trans (by norm_num) (?_ :
      (0.99844205370706881285:ℝ) * 0.21586050011 ≤ 0.99844205370706881285 * u)
    linarith
  have hcm2 : cbrt (xyzLmsM (linearSrgbToXyz ⟨u, u, u⟩)) ≤ 0.599559122 := by
    rw [hXm]
    apply cbrt_le (by nlinarith) (by norm_num)
    refine le_trans (?_ :
      (0.99844205370706881285:ℝ) * u ≤ 0.99844205370706881285 * 0.21586050012)
      (by norm_num)
    linarith
  have hcs1 : (0.588959500 : ℝ) ≤ cbrt (xyzLmsS (linearSrgbToXyz ⟨u, u, u⟩)) := by
    rw [hXs]
    apply le_cbrt (by nlinarith)
    refine le_trans (by norm_num) (?_ :
      (0.94641827787356337309:ℝ) * 0.21586050011 ≤ 0.94641827787356337309 * u)
    linarith
  have hcs2 : cbrt (xyzLmsS (linearSrgbToXyz ⟨u, u, u⟩)) ≤ 0.588959502 := by
    rw [hXs]
    apply cbrt_le (by nlinarith) (by norm_num)
    refine le_trans (?_ :
      (0.94641827787356337309:ℝ) * u ≤ 0.94641827787356337309 * 0.21586050012)
      (by norm_num)
    linarith
  refine ⟨⟨?_, ?_⟩, ⟨?_, ?_⟩, ⟨?_, ?_⟩⟩
  · show (0.601816816:ℝ) ≤ 0.2104542553 * cbrt (xyzLmsL (linearSrgbToXyz ⟨u, u, u⟩))
      + 0.7936177850 * cbrt (xyzLmsM (linearSrgbToXyz ⟨u, u, u⟩))
      - 0.0040720468 * cbrt (xyzLmsS (linearSrgbToXyz ⟨u, u, u⟩))
    linarith
  · show (0.2104542553:ℝ) * cbrt (xyzLmsL (linearSrgbToXyz ⟨u, u, u⟩))
      + 0.7936177850 * cbrt (xyzLmsM (linearSrgbToXyz ⟨u, u, u⟩))
      - 0.0040720468 * cbrt (xyzLmsS (linearSrgbToXyz ⟨u, u, u⟩)) ≤ 0.601816819
    linarith
  · show (0.016037676:ℝ) ≤ 1.9779984951 * cbrt (xyzLmsL (linearSrgbToXyz ⟨u, u, u⟩))
      - 2.4285922050 * cbrt (xyzLmsM (linearSrgbToXyz ⟨u, u, u⟩))
      + 0.4505937099 * cbrt (xyzLmsS (linearSrgbToXyz ⟨u, u, u⟩))
    linarith
  · show (1.9779984951:ℝ) * cbrt (xyzLmsL (linearSrgbToXyz ⟨u, u, u⟩))
      - 2.4285922050 * cbrt (xyzLmsM (linearSrgbToXyz ⟨u, u, u⟩))
      + 0.4505937099 * cbrt (xyzLmsS (linearSrgbToXyz ⟨u, u, u⟩)) ≤ 0.016037687
    linarith
  · show (0.008844255:ℝ) ≤ 0.0259040371 * cbrt (xyzLmsL (linearSrgbToXyz ⟨u, u, u⟩))
      + 0.7827717662 * cbrt (xyzLmsM (linearSrgbToXyz ⟨u, u, u⟩))
      - 0.8086757660 * cbrt (xyzLmsS (linearSrgbToXyz ⟨u, u, u⟩))
    linarith
  · show (0.0259040371:ℝ) * cbrt (xyzLmsL (linearSrgbToXyz ⟨u, u, u⟩))
      + 0.7827717662 * cbrt (xyzLmsM (linearSrgbToXyz ⟨u, u, u⟩))
      - 0.8086757660 * cbrt (xyzLmsS (linearSrgbToXyz ⟨u, u, u⟩)) ≤ 0.008844260
    linarith

set_option maxHeartbeats 1000000 in
/-- Interval bounds for the linear-sRGB triple the source decodes from the
OKLab coordinates of the 8-bit gray `#808080`. -/
theorem gray_backward (L a b : ℝ)
    (hL1 : 0.601816816 ≤ L) (hL2 : L ≤ 0.601816819)
    (ha1 : 0.016037676 ≤ a) (ha2 : a ≤ 0.016037687)
    (hb1 : 0.008844255 ≤ b) (hb2 : b ≤ 0.008844260) :
    (0.26010669 ≤ (xyzToLinearSrgb (oklabToXyz ⟨L, a, b⟩)).r ∧
      (xyzToLinearSrgb (oklabToXyz ⟨L, a, b⟩)).r ≤ 0.2601068) ∧
    (0.20469593 ≤ (xyzToLinearSrgb (oklabToXyz ⟨L, a, b⟩)).g ∧
      (xyzToLinearSrgb (oklabToXyz ⟨L, a, b⟩)).g ≤ 0.20469598) ∧
    (0.19613609 ≤ (xyzToLinearSrgb (oklabToXyz ⟨L, a, b⟩)).b ∧
      (xyzToLinearSrgb (oklabToXyz ⟨L, a, b⟩)).b ≤ 0.19613613) := by
  have hl1 : (0.610081776:ℝ) ≤ oklabL ⟨L, a, b⟩ := by
    show (0.610081776:ℝ) ≤ L + 0.3963377774 * a + 0.2158037573 * b
    linarith
  have hl2 : oklabL ⟨L, a, b⟩ ≤ 0.610081785 := by
    show L + 0.3963377774 * a + 0.2158037573 * b ≤ (0.610081785:ℝ)
    linarith
  have hm1 : (0.599559113:ℝ) ≤ oklabM ⟨L, a, b⟩ := by
    show (0.599559113:ℝ) ≤ L - 0.1055613458 * a - 0.0638541728 * b
    linarith
  have hm2 : oklabM ⟨L, a, b⟩ ≤ 0.599559118 := by
    show L - 0.1055613458 * a - 0.0638541728 * b ≤ (0.599559118:ℝ)
    linarith
  have hs1 : (0.588959462:ℝ) ≤ oklabS ⟨L, a, b⟩ := by
    show (0.588959462:ℝ) ≤ L - 0.0894841775 * a - 1.2914855480 * b
    linarith
  have hs2 : oklabS ⟨L, a, b⟩ ≤ 0.588959474 := by
    show L - 0.0894841775 * a - 1.2914855480 * b ≤ (0.588959474:ℝ)
    linarith
  obtain ⟨hcl1, hcl2⟩ := cube_bounds (by norm_num : (0:ℝ) ≤ 0.610081776) hl1 hl2
  obtain ⟨hcm1, hcm2⟩ := cube_bounds (by norm_num : (0:ℝ) ≤ 0.599559113) hm1 hm2
  obtain ⟨hcs1, hcs2⟩ := cube_bounds (by norm_num : (0:ℝ) ≤ 0.588959462) hs1 hs2
  have hX1 : (0.215860484:ℝ) ≤ (oklabToXyz ⟨L, a, b⟩).X := by
    show (0.215860484:ℝ) ≤
      1.2270138511 * (oklabL ⟨L, a, b⟩ * oklabL ⟨L, a, b⟩ * oklabL ⟨L, a, b⟩)
      - 0.5577999807 * (oklabM ⟨L, a, b⟩ * oklabM ⟨L, a, b⟩ * oklabM ⟨L, a, b⟩)
      + 0.2812561490 * (oklabS ⟨L, a, b⟩ * oklabS ⟨L, a, b⟩ * oklabS ⟨L, a, b⟩)
    linarith [hcl1, hcl2, hcm1, hcm2, hcs1, hcs2]
  have hX2 : (oklabToXyz ⟨L, a, b⟩).X ≤ 0.215860506 := by
    show 1.2270138511 * (oklabL ⟨L, a, b⟩ * oklabL ⟨L, a, b⟩ * oklabL ⟨L, a, b⟩)
      - 0.5577999807 * (oklabM ⟨L, a, b⟩ * oklabM ⟨L, a, b⟩ * oklabM ⟨L, a, b⟩)
      + 0.2812561490 * (oklabS ⟨L, a, b⟩ * oklabS ⟨L, a, b⟩ * oklabS ⟨L, a, b⟩)
      ≤ (0.215860506:ℝ)
    linarith [hcl1, hcl2, hcm1, hcm2, hcs1, hcs2]
  have hY1 : (0.21586049:ℝ) ≤ (oklabToXyz ⟨L, a, b⟩).Y := by
    show (0.21586049:ℝ) ≤
      -0.0405801784 * (oklabL ⟨L, a, b⟩ * oklabL ⟨L, a, b⟩ * oklabL ⟨L, a, b⟩)
      + 1.1122568696 * (oklabM ⟨L, a, b⟩ * oklabM ⟨L, a, b⟩ * oklabM ⟨L, a, b⟩)
      - 0.0716766787 * (oklabS ⟨L, a, b⟩ * oklabS ⟨L, a, b⟩ * oklabS ⟨L, a, b⟩)
    linarith [hcl1, hcl2, hcm1, hcm2, hcs1, hcs2]
  have hY2 : (oklabToXyz ⟨L, a, b⟩).Y ≤ 0.2158605 := by
    show -0.0405801784 * (oklabL ⟨L, a, b⟩ * oklabL ⟨L, a, b⟩ * oklabL ⟨L, a, b⟩)
      + 1.1122568696 * (oklabM ⟨L, a, b⟩ * oklabM ⟨L, a, b⟩ * oklabM ⟨L, a, b⟩)
      - 0.0716766787 * (oklabS ⟨L, a, b⟩ * oklabS ⟨L, a, b⟩ * oklabS ⟨L, a, b⟩)
      ≤ (0.2158605:ℝ)
    linarith [hcl1, hcl2, hcm1, hcm2, hcs1, hcs2]
  have hZ1 : (0.215860434:ℝ) ≤ (oklabToXyz ⟨L, a, b⟩).Z := by
    show (0.215860434:ℝ) ≤
      -0.0763812845 * (oklabL ⟨L, a, b⟩ * oklabL ⟨L, a, b⟩ * oklabL ⟨L, a, b⟩)
      - 0.4214819784 * (oklabM ⟨L, a, b⟩ * oklabM ⟨L, a, b⟩ * oklabM ⟨L, a, b⟩)
      + 1.5861632204 * (oklabS ⟨L, a, b⟩ * oklabS ⟨L, a, b⟩ * oklabS ⟨L, a, b⟩)
    linarith [hcl1, hcl2, hcm1, hcm2, hcs1, hcs2]
  have hZ2 : (oklabToXyz ⟨L, a, b⟩).Z ≤ 0.21586046 := by
    show -0.0763812845 * (oklabL ⟨L, a, b⟩ * oklabL ⟨L, a, b⟩ * oklabL ⟨L, a, b⟩)
      - 0.4214819784 * (oklabM ⟨L, a, b⟩ * oklabM ⟨L, a, b⟩ * oklabM ⟨L, a, b⟩)
      + 1.5861632204 * (oklabS ⟨L, a, b⟩ * oklabS ⟨L, a, b⟩ * oklabS ⟨L, a, b⟩)
      ≤ (0.21586046:ℝ)
    linarith [hcl1, hcl2, hcm1, hcm2, hcs1, hcs2]
  refine ⟨⟨?_, ?_⟩, ⟨?_, ?_⟩, ⟨?_, ?_⟩⟩
  · show (0.26010669:ℝ) ≤ 3.2409699419 * (oklabToXyz ⟨L, a, b⟩).X
      - 1.5373831776 * (oklabToXyz ⟨L, a, b⟩).Y - 0.4986107603 * (oklabToXyz ⟨L, a, b⟩).Z
    linarith
  · show (3.2409699419:ℝ) * (oklabToXyz ⟨L, a, b⟩).X
      - 1.5373831776 * (oklabToXyz ⟨L, a, b⟩).Y - 0.4986107603 * (oklabToXyz ⟨L, a, b⟩).Z
      ≤ 0.2601068
    linarith
  · show (0.20469593:ℝ) ≤ -0.9692436363 * (oklabToXyz ⟨L, a, b⟩).X
      + 1.8759675015 * (oklabToXyz ⟨L, a, b⟩).Y + 0.0415550574 * (oklabToXyz ⟨L, a, b⟩).Z
    linarith
  · show (-0.9692436363:ℝ) * (oklabToXyz ⟨L, a, b⟩).X
      + 1.8759675015 * (oklabToXyz ⟨L, a, b⟩).Y + 0.0415550574 * (oklabToXyz ⟨L, a, b⟩).Z
      ≤ 0.20469598
    linarith
  · show (0.19613609:ℝ) ≤ 0.0556300797 * (oklabToXyz ⟨L, a, b⟩).X
      - 0.2039769589 * (oklabToXyz ⟨L, a, b⟩).Y + 1.0569715142 * (oklabToXyz ⟨L, a, b⟩).Z
    linarith
  · show (0.0556300797:ℝ) * (oklabToXyz ⟨L, a, b⟩).X
      - 0.2039769589 * (oklabToXyz ⟨L, a, b⟩).Y + 1.0569715142 * (oklabToXyz ⟨L, a, b⟩).Z
      ≤ 0.19613613
    linarith

set_option maxHeartbeats 1000000 in
/-- `oklchToHex` of the OKLCH color the source assigns to the 8-bit gray
`#808080` evaluates to `#8B7D7A`. -/
theorem gray_hex (L a b : ℝ)
    (hL1 : 0.601816816 ≤ L) (hL2 : L ≤ 0.601816819)
    (ha1 : 0.016037676 ≤ a) (ha2 : a ≤ 0.016037687)
    (hb1 : 0.008844255 ≤ b) (hb2 : b ≤ 0.008844260) :
    oklchToHex (oklabToOklch ⟨L, a, b⟩) 1 = "#8B7D7A" := by
  obtain ⟨⟨hr1, hr2⟩, ⟨hg1, hg2⟩, ⟨hB1, hB2⟩⟩ :=
    gray_backward L a b hL1 hL2 ha1 ha2 hb1 hb2
  have hpolar : oklchToOklab (oklabToOklch ⟨L, a, b⟩) = ⟨L, a, b⟩ :=
    oklch_polar_roundtrip L a b (by rw [EPS]; linarith) (by linarith)
  have henc : oklchToSrgbEncoded (oklabToOklch ⟨L, a, b⟩) =
      ⟨linearToSrgb (xyzToLinearSrgb (oklabToXyz ⟨L, a, b⟩)).r,
       linearToSrgb (xyzToLinearSrgb (oklabToXyz ⟨L, a, b⟩)).g,
       linearToSrgb (xyzToLinearSrgb (oklabToXyz ⟨L, a, b⟩)).b⟩ := by
    rw [oklchToSrgbEncoded, hpolar]
  have hRenc := linearToSrgb_bounds (x := (xyzToLinearSrgb (oklabToXyz ⟨L, a, b⟩)).r)
    (p := 0.5705755) (q := 0.5705757) (by linarith) (by norm_num)
    (le_trans (by norm_num) (pow_le_pow_left (by norm_num) hr1 5))
    (le_trans (pow_le_pow_left (by linarith) hr2 5) (by norm_num))
  have hGenc := linearToSrgb_bounds (x := (xyzToLinearSrgb (oklabToXyz ⟨L, a, b⟩)).g)
    (p := 0.5163713) (q := 0.5163715) (by linarith) (by norm_num)
    (le_trans (by norm_num) (pow_le_pow_left (by norm_num) hg1 5))
    (le_trans (pow_le_pow_left (by linarith) hg2 5) (by norm_num))
  have hBenc := linearToSrgb_bounds (x := (xyzToLinearSrgb (oklabToXyz ⟨L, a, b⟩)).b)
    (p := 0.5072619) (q := 0.5072621) (by linarith) (by norm_num)
    (le_trans (by norm_num) (pow_le_pow_left (by norm_num) hB1 5))
    (le_trans (pow_le_pow_left (by linarith) hB2 5) (by norm_num))
  have hing : isInGamutSrgbEncoded (oklchToSrgbEncoded (oklabToOklch ⟨L, a, b⟩)) := by
    rw [henc, isInGamutSrgbEncoded]
    refine ⟨?_, ?_, ?_, ?_, ?_, ?_⟩
    · show linearToSrgb (xyzToLinearSrgb (oklabToXyz ⟨L, a, b⟩)).r ≥ -0.00005
      linarith [hRenc.1]
    · show linearToSrgb (xyzToLinearSrgb (oklabToXyz ⟨L, a, b⟩)).r ≤ 1 + 0.00005
      linarith [hRenc.2]
    · show linearToSrgb (xyzToLinearSrgb (oklabToXyz ⟨L, a, b⟩)).g ≥ -0.00005
      linarith [hGenc.1]
    · show linearToSrgb (xyzToLinearSrgb (oklabToXyz ⟨L, a, b⟩)).g ≤ 1 + 0.00005
      linarith [hGenc.2]
    · show linearToSrgb (xyzToLinearSrgb (oklabToXyz ⟨L, a, b⟩)).b ≥ -0.00005
      linarith [hBenc.1]
    · show linearToSrgb (xyzToLinearSrgb (oklabToXyz ⟨L, a, b⟩)).b ≤ 1 + 0.00005
      linarith [hBenc.2]
  have hRbyte : jsRound (clamp01
      (linearToSrgb (xyzToLinearSrgb (oklabToXyz ⟨L, a, b⟩)).r) * 255) = 139 :=
    round_clamp01 (by linarith [hRenc.1]) (by linarith [hRenc.2])
      (by push_cast; linarith [hRenc.1]) (by push_cast; linarith [hRenc.2])
  have hGbyte : jsRound (clamp01
      (linearToSrgb (xyzToLinearSrgb (oklabToXyz ⟨L, a, b⟩)).g) * 255) = 125 :=
    round_clamp01 (by linarith [hGenc.1]) (by linarith [hGenc.2])
      (by push_cast; linarith [hGenc.1]) (by push_cast; linarith [hGenc.2])
  have hBbyte : jsRound (clamp01
      (linearToSrgb (xyzToLinearSrgb (oklabToXyz ⟨L, a, b⟩)).b) * 255) = 122 :=
    round_clamp01 (by linarith [hBenc.1]) (by linarith [hBenc.2])
      (by push_cast; linarith [hBenc.1]) (by push_cast; linarith [hBenc.2])
  unfold oklchToHex
  rw [if_pos (by norm_num : (1:ℝ) ≥ 0.999)]
  rw [clamp_of_inGamut _ 20 hing, henc]
  show "#" ++ natToHex2U (jsRound (clamp01
      (linearToSrgb (xyzToLinearSrgb (oklabToXyz ⟨L, a, b⟩)).r) * 255)).toNat
    ++ natToHex2U (jsRound (clamp01
      (linearToSrgb (xyzToLinearSrgb (oklabToXyz ⟨L, a, b⟩)).g) * 255)).toNat
    ++ natToHex2U (jsRound (clamp01
      (linearToSrgb (xyzToLinearSrgb (oklabToXyz ⟨L, a, b⟩)).b) * 255)).toNat = "#8B7D7A"
  rw [hRbyte, hGbyte, hBbyte]
  rfl

set_option maxHeartbeats 1000000 in
/-- C2 (the code at the failing input): the valid sRGB color `#808080`
(all channels `128/255`) converted by `srgbEncodedToOklch` and encoded
back by `oklchToHex` with alpha 1 yields exactly `"#8B7D7A"`: the red
channel comes back as `139 = 0x8B`, `11` steps away from `128`, far
outside the claimed `±1` tolerance. -/
theorem roundtrip_gray_bug :
    oklchToHex (srgbEncodedToOklch ⟨128/255, 128/255, 128/255⟩) 1 = "#8B7D7A" := by
  have hbu : ¬ ((128/255 : ℝ) ≤ 0.04045) := by norm_num
  have hbase : ((128/255 : ℝ) + 0.055) / 1.055 = 5681/10761 := by norm_num
  have hu1 : (0.21586050011:ℝ) ≤ srgbToLinear (128/255) := by
    rw [srgbToLinear, if_neg hbu, hbase]
    rw [show (2.4:ℝ) = ((12:ℕ):ℝ)/((5:ℕ):ℝ) by norm_num]
    apply le_rpow_ratio 12 5 (by norm_num) (by norm_num)
    norm_num
  have hu2 : srgbToLinear (128/255) ≤ 0.21586050012 := by
    rw [srgbToLinear, if_neg hbu, hbase]
    rw [show (2.4:ℝ) = ((12:ℕ):ℝ)/((5:ℕ):ℝ) by norm_num]
    apply rpow_ratio_le 12 5 (by norm_num) (by norm_num) (by norm_num)
    norm_num
  obtain ⟨⟨h1, h2⟩, ⟨h3, h4⟩, ⟨h5, h6⟩⟩ :=
    gray_forward (srgbToLinear (128/255)) hu1 hu2
  exact gray_hex _ _ _ h1 h2 h3 h4 h5 h6

end

